import Mathlib

/-!
Shallow embedding of the spreadsheet lead-import pipeline of
`src/admin/pages/JobsList.tsx` (CSV parsing, field normalization,
intra-batch and cross-batch deduplication, and the two import
orchestrators `processSpreadsheet` and `handleProcessAllSpreadsheets`),
together with theorems settling the specification claims about it.

Strings are modelled by Lean `String` (logically a packed `List Char`).
The JavaScript operations `trim`, `toLowerCase`, `split` and the
phone-cleanup pattern `^(p\s*:?\s*\+?|\+?)` with the `i` flag are
embedded as executable functions over the character list.  Whitespace
is modelled over the ASCII range (space, tab, carriage return, line
feed), which is the range the pipeline exercises.  JavaScript `Set`
objects are modelled as lists used only through membership and
insertion, and asynchronous store calls (`api.leads.create`) are
modelled by an oracle `SpreadsheetRow → CreateOutcome` giving, for each
row, whether the call resolves (and with which success flag and
message) or throws (and with which message).
-/

/-- ASCII whitespace, the model of the characters matched by the
JavaScript `\s` class and removed by `trim` in the inputs at hand. -/
def isWsChar (c : Char) : Bool :=
  decide (c = ' ' ∨ c = '\t' ∨ c = '\n' ∨ c = '\r')

/-- Characters of a string after removing leading and trailing
whitespace: the model of JavaScript `String.prototype.trim`. -/
def trimChars (l : List Char) : List Char :=
  ((l.dropWhile isWsChar).reverse.dropWhile isWsChar).reverse

/-- Model of JavaScript `trim()`. -/
def jsTrim (s : String) : String := String.mk (trimChars s.data)

/-- ASCII lowering of one character, the model of `toLowerCase` on the
character range the pipeline handles. -/
def lowerChar (c : Char) : Char :=
  if 'A' ≤ c ∧ c ≤ 'Z' then Char.ofNat (c.toNat + 32) else c

/-- Model of JavaScript `toLowerCase()`. -/
def jsToLower (s : String) : String := String.mk (s.data.map lowerChar)

/-- Model of JavaScript `split('\n')`. -/
def splitLines (s : String) : List String :=
  (s.data.splitOn '\n').map String.mk

/-- The non-blank lines of the CSV text:
`csvText.split('\n').filter(line => line.trim())` (JobsList.tsx:613). -/
def nonBlankLines (s : String) : List String :=
  (splitLines s).filter (fun l => decide (jsTrim l ≠ ""))

/-- Drop one leading occurrence of `target`, if present: the model of an
optional single-character regex item such as `:?` or `\+?`. -/
def dropOptChar (target : Char) (l : List Char) : List Char :=
  match l with
  | [] => []
  | c :: cs => if c = target then cs else c :: cs

/-- Characters remaining after deleting the (leftmost, greedy) match of
`^(p\s*:?\s*\+?|\+?)` with the `i` flag (JobsList.tsx:639): if the
string starts with `p` or `P`, that letter, then optional whitespace,
an optional `:`, optional whitespace and an optional `+` are removed;
otherwise one optional leading `+` is removed. -/
def stripPhoneMark (l : List Char) : List Char :=
  match l with
  | [] => []
  | c :: cs =>
    if c = 'p' ∨ c = 'P' then
      dropOptChar '+' (List.dropWhile isWsChar (dropOptChar ':' (List.dropWhile isWsChar cs)))
    else
      dropOptChar '+' (c :: cs)

/-- Model of `phone.replace(/^(p\s*:?\s*\+?|\+?)/i, '').trim()`: the expression
applied to phone values in the parser and both orchestrator loops
(JobsList.tsx:639, 891, 899, 1040, 1074). -/
def stripPhoneRegex (s : String) : String :=
  jsTrim (String.mk (stripPhoneMark s.data))

/-- Model of `cleanPhoneNumber` (JobsList.tsx:636-640): empty input is returned
unchanged, otherwise the leading phone-prefix artifact is stripped and
the result trimmed. -/
def cleanPhoneNumber (phone : String) : String :=
  if phone = "" then "" else stripPhoneRegex phone

/-- Character loop of `parseCSVLine` (JobsList.tsx:616-633): a double
quote toggles the in-quotes flag and is dropped, a comma outside quotes
ends the current field (which is trimmed), every other character is
appended to the current field. -/
def parseCSVLineGo : List Char → Bool → List Char → List String → List String
  | [], _, current, acc => acc ++ [jsTrim (String.mk current)]
  | c :: cs, inQuotes, current, acc =>
    if c = '\"' then parseCSVLineGo cs (not inQuotes) current acc
    else if c = ',' ∧ inQuotes = false then
      parseCSVLineGo cs inQuotes [] (acc ++ [jsTrim (String.mk current)])
    else parseCSVLineGo cs inQuotes (current ++ [c]) acc

/-- Model of `parseCSVLine` (JobsList.tsx:616-633). -/
def parseCSVLine (line : String) : List String :=
  parseCSVLineGo line.data false [] []

/-- Model of `replace(/"/g, '')`: delete all double quotes. -/
def removeQuotes (s : String) : String :=
  String.mk (s.data.filter (fun c => decide (c ≠ '\"')))

/-- A parsed spreadsheet row (the transient `SpreadsheetRow` record,
JobsList.tsx:649). -/
structure SpreadsheetRow where
  name : String
  email : String
  phone : String
  country : String
  message : String
  sourcePage : String
  selectedPlan : String
deriving DecidableEq, Repr

/-- The row with all fields empty, the initial value of each parsed row
(JobsList.tsx:649). -/
def emptyRow : SpreadsheetRow :=
  { name := "", email := "", phone := "", country := "", message := "",
    sourcePage := "", selectedPlan := "" }

/-- The header-synonym switch of the parser (JobsList.tsx:653-668):
maps one header/value pair onto the row, lowercasing emails and
cleaning phones; unrecognized headers leave the row unchanged. -/
def applyHeader (row : SpreadsheetRow) (header value : String) : SpreadsheetRow :=
  if header = "name" ∨ header = "full name" ∨ header = "contact name" ∨ header = "customer name" then
    { row with name := value }
  else if header = "email" ∨ header = "email address" ∨ header = "customer email" then
    { row with email := jsToLower value }
  else if header = "phone" ∨ header = "phone number" ∨ header = "mobile" ∨ header = "contact number" then
    { row with phone := cleanPhoneNumber value }
  else if header = "country" ∨ header = "location" ∨ header = "customer country" then
    { row with country := value }
  else if header = "message" ∨ header = "comments" ∨ header = "notes" ∨ header = "description" then
    { row with message := value }
  else if header = "source" ∨ header = "source page" ∨ header = "page" ∨ header = "referral source" then
    { row with sourcePage := value }
  else if header = "plan" ∨ header = "selected plan" ∨ header = "service" ∨ header = "product" then
    { row with selectedPlan := value }
  else row

/-- Model of `headers.forEach((header, index) => ...)` (JobsList.tsx:651-669):
fold the switch over the headers, reading `values[index] || ''`. -/
def buildRow (headers values : List String) : SpreadsheetRow :=
  (headers.enum).foldl (fun row p => applyHeader row p.2 (values.getD p.1 "")) emptyRow

/-- Normalized headers of the CSV text
(`parseCSVLine(lines[0]).map(h => h.trim().toLowerCase().replace(/"/g, ''))`,
JobsList.tsx:642). -/
def csvHeaders (csv : String) : List String :=
  match nonBlankLines csv with
  | [] => []
  | h :: _ => (parseCSVLine h).map (fun x => removeQuotes (jsToLower (jsTrim x)))

/-- The data lines of the CSV text (all non-blank lines after the
header line). -/
def csvDataLines (csv : String) : List String :=
  (nonBlankLines csv).tail

/-- The row built from one data line
(`parseCSVLine(lines[i]).map(v => v.trim().replace(/"/g, ''))` fed
through the header switch, JobsList.tsx:648-669). -/
def mkDataRow (headers : List String) (line : String) : SpreadsheetRow :=
  buildRow headers ((parseCSVLine line).map (fun v => removeQuotes (jsTrim v)))

/-- The mutable state of one parse pass: the two seen-sets and the
accumulated output rows (JobsList.tsx:643-645). -/
structure ParseState where
  seenPhones : List String
  seenEmails : List String
  rows : List SpreadsheetRow
deriving Repr

/-- One iteration of the parser's data-row loop (JobsList.tsx:647-689):
skip the row if name or email is empty, skip it if its non-empty phone
or its email was already seen, otherwise record phone (when non-empty)
and email as seen and append the row. -/
def parseCSVStep (headers : List String) (st : ParseState) (line : String) : ParseState :=
  if (mkDataRow headers line).name = "" ∨ (mkDataRow headers line).email = "" then st
  else if (mkDataRow headers line).phone ≠ "" ∧ (mkDataRow headers line).phone ∈ st.seenPhones then st
  else if (mkDataRow headers line).email ∈ st.seenEmails then st
  else
    { seenPhones := st.seenPhones ++ (if (mkDataRow headers line).phone ≠ "" then [(mkDataRow headers line).phone] else []),
      seenEmails := st.seenEmails ++ [(mkDataRow headers line).email],
      rows := st.rows ++ [mkDataRow headers line] }

/-- The parser's data-row loop as a fold from the empty state. -/
def parseFold (headers : List String) (lines : List String) : ParseState :=
  lines.foldl (parseCSVStep headers) { seenPhones := [], seenEmails := [], rows := [] }

/-- The final parse state of a CSV text. -/
def parseState (csv : String) : ParseState :=
  parseFold (csvHeaders csv) (csvDataLines csv)

/-- Model of `parseCSV` (JobsList.tsx:612-691): empty input (no non-blank line)
yields no rows, otherwise the data lines are folded through the
dedup loop and the accumulated rows are returned. -/
def parseCSV (csv : String) : List SpreadsheetRow :=
  match nonBlankLines csv with
  | [] => []
  | _ :: t => (parseFold (csvHeaders csv) t).rows

/-- Substring test: the model of JavaScript `String.prototype.includes`. -/
def containsSub (hay needle : String) : Bool :=
  (hay.data.tails).any (fun t => needle.data.isPrefixOf t)

/-- An existing lead as read from the store
(`/backend/api/crm-leads.php?action=leads`): only the three fields the
importer inspects.  The empty string models an absent (null/undefined)
or empty value, both of which are falsy in the source. -/
structure ExistingLead where
  email : String
  phone : String
  mobile_number : String
deriving DecidableEq, Repr

/-- Model of `new Set(existingLeads.map(lead => lead.email?.toLowerCase()).filter(Boolean))`
(JobsList.tsx:888, 1037). -/
def buildExistingEmails (leads : List ExistingLead) : List String :=
  (leads.map (fun l => jsToLower l.email)).filter (fun e => decide (e ≠ ""))

/-- The existing-phones set (JobsList.tsx:889-892, 1038-1041): for each
lead, `lead.phone || lead.mobile_number`, cleaned with the phone regex
when non-empty; falsy results are filtered out. -/
def buildExistingPhones (leads : List ExistingLead) : List String :=
  (leads.map (fun l =>
    if (if l.phone ≠ "" then l.phone else l.mobile_number) ≠ "" then
      stripPhoneRegex (if l.phone ≠ "" then l.phone else l.mobile_number)
    else "")).filter (fun p => decide (p ≠ ""))

/-- Outcome of one `api.leads.create` call: the promise either resolves
with a success flag and message, or rejects (throws) with an error
message. -/
inductive CreateOutcome where
  | resolved (ok : Bool) (msg : String)
  | thrown (msg : String)
deriving DecidableEq, Repr

/-- Model of `row.phone ? row.phone.replace(/^(p\s*:?\s*\+?|\+?)/i, '').trim() : ''`
(JobsList.tsx:899, 1074). -/
def rowCleanPhone (row : SpreadsheetRow) : String :=
  if row.phone ≠ "" then stripPhoneRegex row.phone else ""

/-- Natural number rendered in decimal, for the `Row ${i + 1}` error messages. -/
def natStr (n : Nat) : String := Nat.repr n

/-- Error-log entry prefixed with the 1-based row index. -/
def rowIdxMsg (i : Nat) (rest : String) : String :=
  "Row " ++ natStr (i + 1) ++ ": " ++ rest

/-- The mutable state of the single-spreadsheet row loop
(JobsList.tsx:877-945): the three counters, the error log, the two
existing-sets, and (model instrumentation) the list of rows for which a
creation call was issued. -/
structure LoopState where
  successCount : Nat
  failedCount : Nat
  duplicateCount : Nat
  errors : List String
  existingEmails : List String
  existingPhones : List String
  calls : List SpreadsheetRow
deriving Repr

/-- One iteration of the single-spreadsheet row loop
(JobsList.tsx:894-945).  A row with name and email set is checked
against the existing-email set (lowercased) and then the
existing-phone set (cleaned, when non-empty); a hit is a duplicate and
no creation call is made.  Otherwise the creation call is issued: if
it resolves the row is a success (the success flag is not inspected
here) and its email and non-empty phone enter the sets; if it throws
with a message containing `duplicate` or `already exists`
(case-insensitive) the row is a duplicate, otherwise a failure.  A row
with empty name or email is a failure. -/
def processRowSingle (oracle : SpreadsheetRow → CreateOutcome) (i : Nat)
    (st : LoopState) (row : SpreadsheetRow) : LoopState :=
  if row.name ≠ "" ∧ row.email ≠ "" then
    if jsToLower row.email ∈ st.existingEmails then
      { st with duplicateCount := st.duplicateCount + 1,
                errors := st.errors ++ [rowIdxMsg i ("Email " ++ jsToLower row.email ++ " already exists")] }
    else if rowCleanPhone row ≠ "" ∧ rowCleanPhone row ∈ st.existingPhones then
      { st with duplicateCount := st.duplicateCount + 1,
                errors := st.errors ++ [rowIdxMsg i ("Phone " ++ rowCleanPhone row ++ " already exists")] }
    else
      match oracle row with
      | CreateOutcome.resolved _ _ =>
        { st with successCount := st.successCount + 1,
                  existingEmails := st.existingEmails ++ [jsToLower row.email],
                  existingPhones := st.existingPhones ++ (if rowCleanPhone row ≠ "" then [rowCleanPhone row] else []),
                  calls := st.calls ++ [row] }
      | CreateOutcome.thrown msg =>
        if msg ≠ "" ∧ (containsSub (jsToLower msg) "duplicate" ∨ containsSub (jsToLower msg) "already exists") then
          { st with duplicateCount := st.duplicateCount + 1,
                    errors := st.errors ++ [rowIdxMsg i msg],
                    calls := st.calls ++ [row] }
        else
          { st with failedCount := st.failedCount + 1,
                    errors := st.errors ++ [rowIdxMsg i (row.name ++ " - " ++ msg)],
                    calls := st.calls ++ [row] }
  else
    { st with failedCount := st.failedCount + 1,
              errors := st.errors ++ [rowIdxMsg i "Missing name or email"] }

/-- The single-spreadsheet row loop (`for (let i = 0; i < rows.length; i++)`,
JobsList.tsx:894): rows are processed strictly in order. -/
def processRows (oracle : SpreadsheetRow → CreateOutcome) :
    Nat → LoopState → List SpreadsheetRow → LoopState
  | _, st, [] => st
  | i, st, row :: rest => processRows oracle (i + 1) (processRowSingle oracle i st row) rest

/-- The loop state before the first row: zero counters and the two sets
built from the existing leads (JobsList.tsx:877-892). -/
def initLoopState (leads : List ExistingLead) : LoopState :=
  { successCount := 0, failedCount := 0, duplicateCount := 0, errors := [],
    existingEmails := buildExistingEmails leads,
    existingPhones := buildExistingPhones leads, calls := [] }

/-- The whole row loop of one single-spreadsheet run on the parsed rows
of `body` against the store `leads`. -/
def runLoop (body : String) (leads : List ExistingLead)
    (oracle : SpreadsheetRow → CreateOutcome) : LoopState :=
  processRows oracle 0 (initLoopState leads) (parseCSV body)

/-- The status tag of a completed run (JobsList.tsx:947-955), computed
from the final success/duplicate/failed counters; `no_data` and the
catch-path `error` arise on the exception path instead. -/
inductive RunStatus where
  | success
  | partialStatus
  | all_duplicates
  | error
  | no_data
deriving DecidableEq, Repr

/-- The status decision chain (JobsList.tsx:948-955). -/
def determineStatus (s d f : Nat) : RunStatus :=
  if s = 0 ∧ 0 < d ∧ f = 0 then RunStatus.all_duplicates
  else if 0 < s ∧ (0 < d ∨ 0 < f) then RunStatus.partialStatus
  else if 0 < f ∧ s = 0 then RunStatus.error
  else RunStatus.success

/-- The per-run `SpreadsheetImportResult` (JobsList.tsx:957-966), with
the error log capped at 10 entries. -/
structure ImportResult where
  spreadsheetName : String
  success : Nat
  failed : Nat
  duplicates : Nat
  errors : List String
  status : RunStatus
deriving DecidableEq, Repr

/-- Kind of a toast notification emitted to the user. -/
inductive ToastKind where
  | success
  | info
  | warning
  | error
deriving DecidableEq, Repr

/-- Result of the CSV fetch: a body on HTTP success, or the status code
of a non-success transport response. -/
inductive FetchOutcome where
  | ok (body : String)
  | httpError (status : Nat)
deriving DecidableEq, Repr

/-- Everything externally observable about one `processSpreadsheet`
call: the `setImportResults` value, the entries appended to the
`syncHistory` ring buffer, the toasts emitted, whether a
`last_synced` persistence call was attempted, and the console error
log. -/
structure RunOutput where
  importResults : Option ImportResult
  historyAppend : List ImportResult
  toasts : List (ToastKind × String)
  lastSyncedAttempted : Bool
  consoleErrors : List String
deriving Repr

/-- The result-dependent toasts of the success path
(JobsList.tsx:979-990). -/
def successToasts (name : String) (s d f : Nat) : List (ToastKind × String) :=
  (if 0 < s then
    [(ToastKind.success, "Spreadsheet \"" ++ name ++ "\": Imported " ++ natStr s ++ " leads")]
   else if 0 < d ∧ f = 0 then
    [(ToastKind.info, "Spreadsheet \"" ++ name ++ "\": All " ++ natStr d ++ " leads already exist in database")]
   else if 0 < f ∧ s = 0 then
    [(ToastKind.warning, "Spreadsheet \"" ++ name ++ "\": Failed to import " ++ natStr f ++ " leads")]
   else [])
  ++ (if 0 < d ∧ (0 < s ∨ 0 < f) then
    [(ToastKind.info, "Spreadsheet \"" ++ name ++ "\": Skipped " ++ natStr d ++ " duplicate leads")]
   else [])

/-- The catch path of `processSpreadsheet` (JobsList.tsx:991-1015): an
error message containing `No data` is the distinct no-data outcome
(no error toast), anything else is an error outcome with an error
toast; either way `setImportResults` is called with zeroed counters
and the message as sole error entry, the history is not touched and no
`last_synced` persistence is attempted. -/
def importCatch (name msg : String) : RunOutput :=
  { importResults := some
      { spreadsheetName := name, success := 0, failed := 0, duplicates := 0,
        errors := [msg],
        status := if containsSub msg "No data" then RunStatus.no_data else RunStatus.error },
    historyAppend := [],
    toasts := if containsSub msg "No data" then []
      else [(ToastKind.error, "Error importing spreadsheet \"" ++ name ++ "\": " ++ msg)],
    lastSyncedAttempted := false,
    consoleErrors := ["Import error"] }

/-- The success path of `processSpreadsheet` after a non-empty parse
(JobsList.tsx:877-990): run the row loop, classify, record the result
(`setImportResults` and the history ring buffer), then attempt the
best-effort `last_synced` update whose failure is only logged, then
emit the result toasts. -/
def runRecord (name body : String) (leads : List ExistingLead)
    (oracle : SpreadsheetRow → CreateOutcome) (updateThrows : Bool) : RunOutput :=
  { importResults := some
      { spreadsheetName := name,
        success := (runLoop body leads oracle).successCount,
        failed := (runLoop body leads oracle).failedCount,
        duplicates := (runLoop body leads oracle).duplicateCount,
        errors := (runLoop body leads oracle).errors.take 10,
        status := determineStatus (runLoop body leads oracle).successCount
          (runLoop body leads oracle).duplicateCount (runLoop body leads oracle).failedCount },
    historyAppend := [
      { spreadsheetName := name,
        success := (runLoop body leads oracle).successCount,
        failed := (runLoop body leads oracle).failedCount,
        duplicates := (runLoop body leads oracle).duplicateCount,
        errors := (runLoop body leads oracle).errors.take 10,
        status := determineStatus (runLoop body leads oracle).successCount
          (runLoop body leads oracle).duplicateCount (runLoop body leads oracle).failedCount }],
    toasts := successToasts name (runLoop body leads oracle).successCount
      (runLoop body leads oracle).duplicateCount (runLoop body leads oracle).failedCount,
    lastSyncedAttempted := true,
    consoleErrors := if updateThrows then ["Failed to update last_synced"] else [] }

/-- Model of `processSpreadsheet` (JobsList.tsx:860-1016) for one spreadsheet
with the given name: an unresolvable URL yields only an error toast; an
inactive spreadsheet does nothing; a transport failure or an empty
parse take the catch path; otherwise the run is recorded.  The
`updateThrows` flag says whether the best-effort `last_synced`
persistence call fails. -/
def processSpreadsheet (name : String) (isActive urlValid : Bool)
    (fetch : FetchOutcome) (leads : List ExistingLead)
    (oracle : SpreadsheetRow → CreateOutcome) (updateThrows : Bool) : RunOutput :=
  if urlValid = false then
    { importResults := none, historyAppend := [],
      toasts := [(ToastKind.error, "Spreadsheet \"" ++ name ++ "\" has invalid URL")],
      lastSyncedAttempted := false, consoleErrors := [] }
  else if isActive = false then
    { importResults := none, historyAppend := [], toasts := [],
      lastSyncedAttempted := false, consoleErrors := [] }
  else
    match fetch with
    | FetchOutcome.httpError status =>
      importCatch name ("Failed to fetch spreadsheet data (HTTP " ++ natStr status ++ ")")
    | FetchOutcome.ok body =>
      if parseCSV body = [] then importCatch name "No data found in spreadsheet"
      else runRecord name body leads oracle updateThrows

/-- Per-row classification event of the sync-all run (model
instrumentation): the sheet index within the run, the row's lowercased
email and cleaned phone, and whether the row was created, classified as
a duplicate, or failed. -/
inductive RowEvent where
  | created (sheetIdx : Nat) (email phone : String)
  | dup (sheetIdx : Nat) (email phone : String)
  | fail (sheetIdx : Nat) (email phone : String)
deriving DecidableEq, Repr

/-- The email recorded in a row event. -/
def evEmail : RowEvent → String
  | RowEvent.created _ e _ => e
  | RowEvent.dup _ e _ => e
  | RowEvent.fail _ e _ => e

/-- The cleaned phone recorded in a row event. -/
def evPhone : RowEvent → String
  | RowEvent.created _ _ p => p
  | RowEvent.dup _ _ p => p
  | RowEvent.fail _ _ p => p

/-- Whether a row event is a duplicate classification. -/
def isDupEv : RowEvent → Bool
  | RowEvent.dup _ _ _ => true
  | _ => false

/-- Whether a row event is a successful creation. -/
def isCreatedEv : RowEvent → Bool
  | RowEvent.created _ _ _ => true
  | _ => false

/-- Whether a row event is a failure. -/
def isFailEv : RowEvent → Bool
  | RowEvent.fail _ _ _ => true
  | _ => false

/-- The state threaded through a whole sync-all run
(JobsList.tsx:1026-1041): the one shared pair of existing-email and
existing-phone sets built before the first spreadsheet, the run-wide
totals, the error log, and (model instrumentation) the event trace and
the list of issued creation calls. -/
structure AllState where
  emails : List String
  phones : List String
  totalSuccess : Nat
  totalFailed : Nat
  totalDuplicates : Nat
  errors : List String
  trace : List RowEvent
  calls : List SpreadsheetRow
deriving Repr

/-- Model of `result.message || 'Failed to create lead'` (JobsList.tsx:1108). -/
def failMsgAll (msg : String) : String :=
  if msg ≠ "" then msg else "Failed to create lead"

/-- One iteration of the sync-all row loop (JobsList.tsx:1069-1123),
for the sheet at index `k` of the run and the row at index `i` of its
sheet.  Differences from the single-spreadsheet loop: the shared global
sets are used, a resolved creation is only a success when
`result.success` is true, and a thrown error is reclassified as a
duplicate only when its message contains `duplicate`
(case-insensitive) - `already exists` is not checked here. -/
def processRowAll (oracle : SpreadsheetRow → CreateOutcome) (k i : Nat)
    (st : AllState) (row : SpreadsheetRow) : AllState :=
  if row.name ≠ "" ∧ row.email ≠ "" then
    if jsToLower row.email ∈ st.emails then
      { st with totalDuplicates := st.totalDuplicates + 1,
                errors := st.errors ++ [rowIdxMsg i ("Email " ++ jsToLower row.email ++ " already exists")],
                trace := st.trace ++ [RowEvent.dup k (jsToLower row.email) (rowCleanPhone row)] }
    else if rowCleanPhone row ≠ "" ∧ rowCleanPhone row ∈ st.phones then
      { st with totalDuplicates := st.totalDuplicates + 1,
                errors := st.errors ++ [rowIdxMsg i ("Phone " ++ rowCleanPhone row ++ " already exists")],
                trace := st.trace ++ [RowEvent.dup k (jsToLower row.email) (rowCleanPhone row)] }
    else
      match oracle row with
      | CreateOutcome.resolved true _ =>
        { st with emails := st.emails ++ [jsToLower row.email],
                  phones := st.phones ++ (if rowCleanPhone row ≠ "" then [rowCleanPhone row] else []),
                  totalSuccess := st.totalSuccess + 1,
                  trace := st.trace ++ [RowEvent.created k (jsToLower row.email) (rowCleanPhone row)],
                  calls := st.calls ++ [row] }
      | CreateOutcome.resolved false msg =>
        { st with totalFailed := st.totalFailed + 1,
                  errors := st.errors ++ [rowIdxMsg i (failMsgAll msg)],
                  trace := st.trace ++ [RowEvent.fail k (jsToLower row.email) (rowCleanPhone row)],
                  calls := st.calls ++ [row] }
      | CreateOutcome.thrown msg =>
        if msg ≠ "" ∧ containsSub (jsToLower msg) "duplicate" then
          { st with totalDuplicates := st.totalDuplicates + 1,
                    errors := st.errors ++ [rowIdxMsg i msg],
                    trace := st.trace ++ [RowEvent.dup k (jsToLower row.email) (rowCleanPhone row)],
                    calls := st.calls ++ [row] }
        else
          { st with totalFailed := st.totalFailed + 1,
                    errors := st.errors ++ [rowIdxMsg i (row.name ++ " - " ++ msg)],
                    trace := st.trace ++ [RowEvent.fail k (jsToLower row.email) (rowCleanPhone row)],
                    calls := st.calls ++ [row] }
  else
    { st with totalFailed := st.totalFailed + 1,
              errors := st.errors ++ [rowIdxMsg i "Missing name or email"],
              trace := st.trace ++ [RowEvent.fail k (jsToLower row.email) (rowCleanPhone row)] }

/-- The sync-all row loop over one sheet's parsed rows. -/
def processRowsAll (oracle : SpreadsheetRow → CreateOutcome) (k : Nat) :
    Nat → AllState → List SpreadsheetRow → AllState
  | _, st, [] => st
  | i, st, row :: rest =>
    processRowsAll oracle k (i + 1) (processRowAll oracle k i st row) rest

/-- One active spreadsheet of a sync-all run: its name, whether its URL
resolves to a CSV export URL, and the outcome of fetching it. -/
structure SheetInput where
  name : String
  urlValid : Bool
  fetch : FetchOutcome
deriving Repr

/-- The sync-all sheet loop (JobsList.tsx:1043-1155): a sheet whose URL
does not resolve, whose fetch fails, or whose CSV parses to zero rows
is skipped (`continue`), otherwise its rows are processed against the
shared state. -/
def syncAllGo (oracle : SpreadsheetRow → CreateOutcome) :
    Nat → AllState → List SheetInput → AllState
  | _, st, [] => st
  | k, st, sheet :: rest =>
    syncAllGo oracle (k + 1)
      (if sheet.urlValid = false then st
       else
         match sheet.fetch with
         | FetchOutcome.httpError _ => st
         | FetchOutcome.ok body =>
           if parseCSV body = [] then st
           else processRowsAll oracle k 0 st (parseCSV body))
      rest

/-- Model of `handleProcessAllSpreadsheets` (JobsList.tsx:1018-1173) on the
active spreadsheets: the shared pair of existing-email/phone sets is
built once from the store, then every sheet is processed in sequence
against that shared, mutated state. -/
def syncAll (oracle : SpreadsheetRow → CreateOutcome)
    (leads : List ExistingLead) (sheets : List SheetInput) : AllState :=
  syncAllGo oracle 0
    { emails := buildExistingEmails leads, phones := buildExistingPhones leads,
      totalSuccess := 0, totalFailed := 0, totalDuplicates := 0,
      errors := [], trace := [], calls := [] }
    sheets

/-- Whether a string does not start with whitespace or `+`: the side
condition under which the regex match of the `p:` form consumes nothing
beyond the `p:` itself. -/
def headNotWsPlus (s : String) : Bool :=
  match s.data with
  | [] => true
  | c :: _ => (!(isWsChar c)) && decide (c ≠ '+')

/-! ### Auxiliary lemmas -/

theorem mk_cons_ne_empty (c : Char) (l : List Char) : String.mk (c :: l) ≠ "" := by
  intro h
  have h2 : c :: l = ([] : List Char) := congrArg String.data h
  exact List.noConfusion h2

theorem str_append_data (a b : String) : (a ++ b).data = a.data ++ b.data := rfl

theorem jsToLower_ne_empty (s : String) (h : s ≠ "") : jsToLower s ≠ "" := by
  obtain ⟨l⟩ := s
  cases l with
  | nil => exact absurd rfl h
  | cons c cs => exact mk_cons_ne_empty (lowerChar c) (cs.map lowerChar)

theorem dropWhile_ws_cons (c : Char) (l : List Char) (h : isWsChar c = false) :
    List.dropWhile isWsChar (c :: l) = c :: l := by
  rw [List.dropWhile_cons, h]
  simp

theorem dropOptChar_nil (t : Char) : dropOptChar t [] = [] := rfl

theorem dropOptChar_cons_ne (t c : Char) (l : List Char) (h : c ≠ t) :
    dropOptChar t (c :: l) = c :: l := by
  rw [dropOptChar, if_neg h]

/-! ### Claim C7 -/

/-- Claim C7 (confirmed): for every phone string beginning with one of
the prefix patterns `p:`, `p+`, or `+` (case-insensitive, with optional
whitespace inside the `p:` form, and the p-form optionally followed by
`+`), `cleanPhoneNumber` returns the remainder after stripping that
leading prefix and trimming surrounding whitespace; the empty string is
returned for empty input.  The bare `p:` form carries the side
condition that the remainder does not itself begin with whitespace or
`+`, since the greedy match would consume those as part of the
prefix. -/
theorem C7_clean_phone_prefixes :
    cleanPhoneNumber "" = ""
  ∧ (∀ rest : String, cleanPhoneNumber ("p:+" ++ rest) = jsTrim rest)
  ∧ (∀ rest : String, cleanPhoneNumber ("P:+" ++ rest) = jsTrim rest)
  ∧ (∀ rest : String, cleanPhoneNumber ("p+" ++ rest) = jsTrim rest)
  ∧ (∀ rest : String, cleanPhoneNumber ("+" ++ rest) = jsTrim rest)
  ∧ (∀ rest : String, cleanPhoneNumber ("p : +" ++ rest) = jsTrim rest)
  ∧ (∀ rest : String, headNotWsPlus rest = true → cleanPhoneNumber ("p:" ++ rest) = jsTrim rest) := by
  refine ⟨rfl, ?_, ?_, ?_, ?_, ?_, ?_⟩
  · intro rest
    obtain ⟨l⟩ := rest
    show cleanPhoneNumber (String.mk ('p' :: ':' :: '+' :: l)) = jsTrim (String.mk l)
    rw [cleanPhoneNumber, if_neg (mk_cons_ne_empty _ _)]
    show jsTrim (String.mk (stripPhoneMark ('p' :: ':' :: '+' :: l))) = jsTrim (String.mk l)
    rw [stripPhoneMark, if_pos (Or.inl rfl), dropWhile_ws_cons ':' _ (by decide),
      dropOptChar, if_pos rfl, dropWhile_ws_cons '+' _ (by decide), dropOptChar, if_pos rfl]
  · intro rest
    obtain ⟨l⟩ := rest
    show cleanPhoneNumber (String.mk ('P' :: ':' :: '+' :: l)) = jsTrim (String.mk l)
    rw [cleanPhoneNumber, if_neg (mk_cons_ne_empty _ _)]
    show jsTrim (String.mk (stripPhoneMark ('P' :: ':' :: '+' :: l))) = jsTrim (String.mk l)
    rw [stripPhoneMark, if_pos (Or.inr rfl), dropWhile_ws_cons ':' _ (by decide),
      dropOptChar, if_pos rfl, dropWhile_ws_cons '+' _ (by decide), dropOptChar, if_pos rfl]
  · intro rest
    obtain ⟨l⟩ := rest
    show cleanPhoneNumber (String.mk ('p' :: '+' :: l)) = jsTrim (String.mk l)
    rw [cleanPhoneNumber, if_neg (mk_cons_ne_empty _ _)]
    show jsTrim (String.mk (stripPhoneMark ('p' :: '+' :: l))) = jsTrim (String.mk l)
    rw [stripPhoneMark, if_pos (Or.inl rfl), dropWhile_ws_cons '+' _ (by decide),
      dropOptChar_cons_ne _ _ _ (by decide), dropWhile_ws_cons '+' _ (by decide),
      dropOptChar, if_pos rfl]
  · intro rest
    obtain ⟨l⟩ := rest
    show cleanPhoneNumber (String.mk ('+' :: l)) = jsTrim (String.mk l)
    rw [cleanPhoneNumber, if_neg (mk_cons_ne_empty _ _)]
    show jsTrim (String.mk (stripPhoneMark ('+' :: l))) = jsTrim (String.mk l)
    rw [stripPhoneMark, if_neg (by decide), dropOptChar, if_pos rfl]
  · intro rest
    obtain ⟨l⟩ := rest
    show cleanPhoneNumber (String.mk ('p' :: ' ' :: ':' :: ' ' :: '+' :: l)) = jsTrim (String.mk l)
    rw [cleanPhoneNumber, if_neg (mk_cons_ne_empty _ _)]
    show jsTrim (String.mk (stripPhoneMark ('p' :: ' ' :: ':' :: ' ' :: '+' :: l))) = jsTrim (String.mk l)
    rw [stripPhoneMark, if_pos (Or.inl rfl), List.dropWhile_cons]
    rw [if_pos (by decide : isWsChar ' ' = true), dropWhile_ws_cons ':' _ (by decide),
      dropOptChar, if_pos rfl, List.dropWhile_cons, if_pos (by decide : isWsChar ' ' = true),
      dropWhile_ws_cons '+' _ (by decide), dropOptChar, if_pos rfl]
  · intro rest h
    obtain ⟨l⟩ := rest
    cases l with
    | nil =>
      show cleanPhoneNumber (String.mk ['p', ':']) = jsTrim (String.mk [])
      rw [cleanPhoneNumber, if_neg (mk_cons_ne_empty _ _)]
      show jsTrim (String.mk (stripPhoneMark ['p', ':'])) = jsTrim (String.mk [])
      rw [stripPhoneMark, if_pos (Or.inl rfl), dropWhile_ws_cons ':' _ (by decide),
        dropOptChar, if_pos rfl]
      rfl
    | cons c cs =>
      have hc : isWsChar c = false ∧ c ≠ '+' := by
        rw [headNotWsPlus] at h
        simpa using h
      show cleanPhoneNumber (String.mk ('p' :: ':' :: c :: cs)) = jsTrim (String.mk (c :: cs))
      rw [cleanPhoneNumber, if_neg (mk_cons_ne_empty _ _)]
      show jsTrim (String.mk (stripPhoneMark ('p' :: ':' :: c :: cs))) = jsTrim (String.mk (c :: cs))
      rw [stripPhoneMark, if_pos (Or.inl rfl), dropWhile_ws_cons ':' _ (by decide),
        dropOptChar, if_pos rfl, dropWhile_ws_cons c _ hc.1, dropOptChar_cons_ne _ _ _ hc.2]

/-- Witness for C7: the side condition of the bare `p:` form holds at
the spec's example remainder, and the theorem instantiates to the
spec's example `p:+15551234567` becoming `15551234567`. -/
theorem C7_clean_phone_prefixes_witness :
    headNotWsPlus "15551234567" = true
  ∧ cleanPhoneNumber ("p:" ++ "15551234567") = jsTrim "15551234567"
  ∧ cleanPhoneNumber ("p:+" ++ "15551234567") = jsTrim "15551234567" :=
  ⟨by decide, C7_clean_phone_prefixes.2.2.2.2.2.2 "15551234567" (by decide),
   C7_clean_phone_prefixes.2.1 "15551234567"⟩

/-! ### Claim C10 -/

theorem processRowSingle_sum (oracle : SpreadsheetRow → CreateOutcome) (i : Nat)
    (st : LoopState) (row : SpreadsheetRow) :
    (processRowSingle oracle i st row).successCount
      + (processRowSingle oracle i st row).duplicateCount
      + (processRowSingle oracle i st row).failedCount
    = st.successCount + st.duplicateCount + st.failedCount + 1 := by
  rw [processRowSingle]
  by_cases h1 : row.name ≠ "" ∧ row.email ≠ ""
  · rw [if_pos h1]
    by_cases h2 : jsToLower row.email ∈ st.existingEmails
    · rw [if_pos h2]; simp; omega
    · rw [if_neg h2]
      by_cases h3 : rowCleanPhone row ≠ "" ∧ rowCleanPhone row ∈ st.existingPhones
      · rw [if_pos h3]; simp; omega
      · rw [if_neg h3]
        cases ho : oracle row with
        | resolved ok msg => dsimp only; omega
        | thrown msg =>
          dsimp only
          by_cases h4 : msg ≠ "" ∧ (containsSub (jsToLower msg) "duplicate" = true
              ∨ containsSub (jsToLower msg) "already exists" = true)
          · rw [if_pos h4]; dsimp only; omega
          · rw [if_neg h4]; dsimp only; omega
  · rw [if_neg h1]; simp; omega

theorem processRows_sum (oracle : SpreadsheetRow → CreateOutcome) (rows : List SpreadsheetRow) :
    ∀ (i : Nat) (st : LoopState),
    (processRows oracle i st rows).successCount
      + (processRows oracle i st rows).duplicateCount
      + (processRows oracle i st rows).failedCount
    = st.successCount + st.duplicateCount + st.failedCount + rows.length := by
  induction rows with
  | nil => intro i st; rfl
  | cons row rest ih =>
    intro i st
    rw [processRows, ih, processRowSingle_sum]
    simp [List.length_cons]
    omega

/-- Claim C10 (confirmed): in the single-spreadsheet row loop each
parsed row increments exactly one of the three counters, so at the end
of the loop the success, duplicate and failed counts sum to the number
of rows returned by `parseCSV`. -/
theorem C10_counters_partition (body : String) (leads : List ExistingLead)
    (oracle : SpreadsheetRow → CreateOutcome) :
    (runLoop body leads oracle).successCount + (runLoop body leads oracle).duplicateCount
      + (runLoop body leads oracle).failedCount = (parseCSV body).length := by
  rw [runLoop, processRows_sum]
  simp [initLoopState]

/-! ### Claim C3 -/

/-- Claim C3 (confirmed): for a run that processes at least one parsed
row, the recorded status is `determineStatus` of the final counters
(JobsList.tsx:947-955), and that decision chain satisfies the claimed
precedence: all successes and nothing else gives `success`; zero
successes, only duplicates, gives `all_duplicates`; a success together
with a duplicate or failure gives `partial`; zero successes with a
failure and no duplicates gives `error`. -/
theorem C3_status_precedence (name body : String) (leads : List ExistingLead)
    (oracle : SpreadsheetRow → CreateOutcome) (ut : Bool) (h : parseCSV body ≠ []) :
    (processSpreadsheet name true true (FetchOutcome.ok body) leads oracle ut).importResults =
      some { spreadsheetName := name,
             success := (runLoop body leads oracle).successCount,
             failed := (runLoop body leads oracle).failedCount,
             duplicates := (runLoop body leads oracle).duplicateCount,
             errors := (runLoop body leads oracle).errors.take 10,
             status := determineStatus (runLoop body leads oracle).successCount
               (runLoop body leads oracle).duplicateCount (runLoop body leads oracle).failedCount }
  ∧ (∀ s d f : Nat, 1 ≤ s + d + f →
      ((d = 0 ∧ f = 0) → determineStatus s d f = RunStatus.success)
    ∧ ((s = 0 ∧ f = 0 ∧ 1 ≤ d) → determineStatus s d f = RunStatus.all_duplicates)
    ∧ ((1 ≤ s ∧ (1 ≤ d ∨ 1 ≤ f)) → determineStatus s d f = RunStatus.partialStatus)
    ∧ ((s = 0 ∧ d = 0 ∧ 1 ≤ f) → determineStatus s d f = RunStatus.error)) := by
  constructor
  · simp [processSpreadsheet, runRecord, h]
  · intro s d f _
    refine ⟨?_, ?_, ?_, ?_⟩
    · rintro ⟨hd, hf⟩
      subst hd; subst hf
      simp [determineStatus]
    · rintro ⟨hs, hf, hd⟩
      subst hs; subst hf
      rw [determineStatus, if_pos ⟨rfl, hd, rfl⟩]
    · rintro ⟨hs, hdf⟩
      rw [determineStatus, if_neg (by omega : ¬(s = 0 ∧ 0 < d ∧ f = 0)), if_pos ⟨hs, hdf⟩]
    · rintro ⟨hs, hd, hf⟩
      subst hs; subst hd
      rw [determineStatus, if_neg (by omega), if_neg (by omega), if_pos ⟨hf, rfl⟩]

/-- Witness for C3: the theorem instantiated at a one-row sheet that
parses to a single valid row, and the four precedence cases at concrete
counter values. -/
theorem C3_status_precedence_witness :
    determineStatus 2 0 0 = RunStatus.success
  ∧ determineStatus 0 3 0 = RunStatus.all_duplicates
  ∧ determineStatus 1 1 0 = RunStatus.partialStatus
  ∧ determineStatus 0 0 2 = RunStatus.error :=
  ⟨((C3_status_precedence "S" "name,email\na,a@x.com" []
      (fun _ => CreateOutcome.resolved true "") false (by decide)).2 2 0 0 (by decide)).1
        ⟨rfl, rfl⟩,
   (((C3_status_precedence "S" "name,email\na,a@x.com" []
      (fun _ => CreateOutcome.resolved true "") false (by decide)).2 0 3 0 (by decide)).2.1
        ⟨rfl, rfl, by decide⟩),
   (((C3_status_precedence "S" "name,email\na,a@x.com" []
      (fun _ => CreateOutcome.resolved true "") false (by decide)).2 1 1 0 (by decide)).2.2.1
        ⟨by decide, Or.inl (by decide)⟩),
   (((C3_status_precedence "S" "name,email\na,a@x.com" []
      (fun _ => CreateOutcome.resolved true "") false (by decide)).2 0 0 2 (by decide)).2.2.2
        ⟨rfl, rfl, by decide⟩)⟩

/-! ### Claim C6 -/

theorem mem_buildExistingEmails (lead : ExistingLead) (leads : List ExistingLead)
    (hmem : lead ∈ leads) (hne : lead.email ≠ "") :
    jsToLower lead.email ∈ buildExistingEmails leads := by
  rw [buildExistingEmails]
  refine List.mem_filter.mpr ⟨List.mem_map.mpr ⟨lead, hmem, rfl⟩, ?_⟩
  simpa using jsToLower_ne_empty lead.email hne

theorem processRowSingle_email_dup (oracle : SpreadsheetRow → CreateOutcome) (i : Nat)
    (st : LoopState) (row : SpreadsheetRow)
    (hname : row.name ≠ "") (hemail : row.email ≠ "")
    (hmem : jsToLower row.email ∈ st.existingEmails) :
    processRowSingle oracle i st row =
      { st with duplicateCount := st.duplicateCount + 1,
                errors := st.errors ++ [rowIdxMsg i ("Email " ++ jsToLower row.email ++ " already exists")] } := by
  rw [processRowSingle, if_pos ⟨hname, hemail⟩, if_pos hmem]

theorem processRowSingle_calls_prop (oracle : SpreadsheetRow → CreateOutcome) (i : Nat)
    (st : LoopState) (row : SpreadsheetRow) (E0 : List String)
    (hsub : ∀ x, x ∈ E0 → x ∈ st.existingEmails)
    (hcalls : ∀ r, r ∈ st.calls → jsToLower r.email ∉ E0) :
    (∀ x, x ∈ E0 → x ∈ (processRowSingle oracle i st row).existingEmails)
    ∧ (∀ r, r ∈ (processRowSingle oracle i st row).calls → jsToLower r.email ∉ E0) := by
  rw [processRowSingle]
  by_cases h1 : row.name ≠ "" ∧ row.email ≠ ""
  · rw [if_pos h1]
    by_cases h2 : jsToLower row.email ∈ st.existingEmails
    · rw [if_pos h2]
      exact ⟨hsub, hcalls⟩
    · rw [if_neg h2]
      have hrow : jsToLower row.email ∉ E0 := fun hx => h2 (hsub _ hx)
      have hcalls2 : ∀ r, r ∈ st.calls ++ [row] → jsToLower r.email ∉ E0 := by
        intro r hr
        rcases List.mem_append.mp hr with hr | hr
        · exact hcalls r hr
        · rw [List.mem_singleton.mp hr]
          exact hrow
      by_cases h3 : rowCleanPhone row ≠ "" ∧ rowCleanPhone row ∈ st.existingPhones
      · rw [if_pos h3]
        exact ⟨hsub, hcalls⟩
      · rw [if_neg h3]
        cases ho : oracle row with
        | resolved ok msg =>
          dsimp only
          exact ⟨fun x hx => List.mem_append_left _ (hsub x hx), hcalls2⟩
        | thrown msg =>
          dsimp only
          by_cases h4 : msg ≠ "" ∧ (containsSub (jsToLower msg) "duplicate" = true
              ∨ containsSub (jsToLower msg) "already exists" = true)
          · rw [if_pos h4]
            exact ⟨hsub, hcalls2⟩
          · rw [if_neg h4]
            exact ⟨hsub, hcalls2⟩
  · rw [if_neg h1]
    exact ⟨hsub, hcalls⟩

theorem processRows_calls_prop (oracle : SpreadsheetRow → CreateOutcome)
    (rows : List SpreadsheetRow) (E0 : List String) :
    ∀ (i : Nat) (st : LoopState),
    (∀ x, x ∈ E0 → x ∈ st.existingEmails) →
    (∀ r, r ∈ st.calls → jsToLower r.email ∉ E0) →
    (∀ x, x ∈ E0 → x ∈ (processRows oracle i st rows).existingEmails)
    ∧ (∀ r, r ∈ (processRows oracle i st rows).calls → jsToLower r.email ∉ E0) := by
  induction rows with
  | nil => intro i st hsub hcalls; exact ⟨hsub, hcalls⟩
  | cons row rest ih =>
    intro i st hsub hcalls
    rw [processRows]
    have hstep := processRowSingle_calls_prop oracle i st row E0 hsub hcalls
    exact ih (i + 1) (processRowSingle oracle i st row) hstep.1 hstep.2

/-- Claim C6 (confirmed): duplicate detection against the existing
store is case-insensitive on email.  First part: at any point of the
row loop whose existing-email set still contains the store's lowercased
emails, a row whose lowercased email equals the lowercased email of an
existing lead is classified as a duplicate - the duplicate counter is
incremented and no creation call is issued, no success is counted.
Second part: over a whole run, no creation call is ever issued for a
row whose lowercased email matches the lowercased email of an existing
lead. -/
theorem C6_email_dup_case_insensitive :
    (∀ (oracle : SpreadsheetRow → CreateOutcome) (i : Nat) (st : LoopState)
        (row : SpreadsheetRow) (lead : ExistingLead) (leads : List ExistingLead),
      lead ∈ leads → lead.email ≠ "" → row.name ≠ "" →
      jsToLower row.email = jsToLower lead.email →
      (∀ x, x ∈ buildExistingEmails leads → x ∈ st.existingEmails) →
      (processRowSingle oracle i st row).duplicateCount = st.duplicateCount + 1
      ∧ (processRowSingle oracle i st row).calls = st.calls
      ∧ (processRowSingle oracle i st row).successCount = st.successCount)
  ∧ (∀ (body : String) (leads : List ExistingLead)
        (oracle : SpreadsheetRow → CreateOutcome) (lead : ExistingLead),
      lead ∈ leads → lead.email ≠ "" →
      ∀ r, r ∈ (runLoop body leads oracle).calls →
        jsToLower r.email ≠ jsToLower lead.email) := by
  constructor
  · intro oracle i st row lead leads hm hle hname heq hsub
    have hre : row.email ≠ "" := by
      intro h0
      apply jsToLower_ne_empty lead.email hle
      rw [← heq, h0]
      rfl
    have hmem : jsToLower row.email ∈ st.existingEmails := by
      apply hsub
      rw [heq]
      exact mem_buildExistingEmails lead leads hm hle
    rw [processRowSingle_email_dup oracle i st row hname hre hmem]
    exact ⟨rfl, rfl, rfl⟩
  · intro body leads oracle lead hm hle r hr heq
    have h := (processRows_calls_prop oracle (parseCSV body) (buildExistingEmails leads) 0
      (initLoopState leads) (fun x hx => hx) (fun r hr => absurd hr (List.not_mem_nil r))).2
    apply h r hr
    rw [heq]
    exact mem_buildExistingEmails lead leads hm hle

/-- Witness for C6: the spec's example - the store holds `j@x.com` and
the incoming row carries `J@X.com`; the theorem instantiates to a
duplicate classification with no creation call. -/
theorem C6_email_dup_case_insensitive_witness :
    (processRowSingle (fun _ => CreateOutcome.resolved true "") 0
        (initLoopState [{ email := "j@x.com", phone := "", mobile_number := "" }])
        { name := "Jay", email := "J@X.com", phone := "", country := "", message := "",
          sourcePage := "", selectedPlan := "" }).duplicateCount
      = (initLoopState [{ email := "j@x.com", phone := "", mobile_number := "" }]).duplicateCount + 1
  ∧ (processRowSingle (fun _ => CreateOutcome.resolved true "") 0
        (initLoopState [{ email := "j@x.com", phone := "", mobile_number := "" }])
        { name := "Jay", email := "J@X.com", phone := "", country := "", message := "",
          sourcePage := "", selectedPlan := "" }).calls
      = (initLoopState [{ email := "j@x.com", phone := "", mobile_number := "" }]).calls
  ∧ (processRowSingle (fun _ => CreateOutcome.resolved true "") 0
        (initLoopState [{ email := "j@x.com", phone := "", mobile_number := "" }])
        { name := "Jay", email := "J@X.com", phone := "", country := "", message := "",
          sourcePage := "", selectedPlan := "" }).successCount
      = (initLoopState [{ email := "j@x.com", phone := "", mobile_number := "" }]).successCount :=
  C6_email_dup_case_insensitive.1 (fun _ => CreateOutcome.resolved true "") 0
    (initLoopState [{ email := "j@x.com", phone := "", mobile_number := "" }])
    { name := "Jay", email := "J@X.com", phone := "", country := "", message := "",
      sourcePage := "", selectedPlan := "" }
    { email := "j@x.com", phone := "", mobile_number := "" }
    [{ email := "j@x.com", phone := "", mobile_number := "" }]
    (by decide) (by decide) (by decide) (by decide) (fun x hx => hx)

/-! ### Claim C8 -/

theorem msg_ne_of_contains_dup (msg : String)
    (h : containsSub (jsToLower msg) "duplicate" = true
      ∨ containsSub (jsToLower msg) "already exists" = true) : msg ≠ "" := by
  intro h0
  subst h0
  revert h
  decide

/-- Counterexample to claim C8 as stated: in the sync-all loop, a
creation call that throws with message `Lead already exists` (which
contains `already exists` but not `duplicate`) is counted as a failure,
not a duplicate (JobsList.tsx:1112 checks only `duplicate`). -/
theorem C8_already_exists_cex :
    (processRowAll (fun _ => CreateOutcome.thrown "Lead already exists") 0 0
      { emails := [], phones := [], totalSuccess := 0, totalFailed := 0,
        totalDuplicates := 0, errors := [], trace := [], calls := [] }
      { name := "bob", email := "b@x.com", phone := "", country := "", message := "",
        sourcePage := "", selectedPlan := "" }).totalFailed = 1
  ∧ (processRowAll (fun _ => CreateOutcome.thrown "Lead already exists") 0 0
      { emails := [], phones := [], totalSuccess := 0, totalFailed := 0,
        totalDuplicates := 0, errors := [], trace := [], calls := [] }
      { name := "bob", email := "b@x.com", phone := "", country := "", message := "",
        sourcePage := "", selectedPlan := "" }).totalDuplicates = 0 := by
  constructor <;> decide

/-- Claim C8 (corrected): in the single-spreadsheet loop a thrown
creation error whose message contains `duplicate` or `already exists`
(case-insensitive) is counted as a duplicate, not a failure; in the
sync-all loop only `duplicate` triggers the reclassification - a
thrown `already exists` message without `duplicate` is counted as a
failure there; in both loops processing continues with the remaining
rows. -/
theorem C8_throw_reclassify_amended :
    (∀ (oracle : SpreadsheetRow → CreateOutcome) (i : Nat) (st : LoopState)
        (row : SpreadsheetRow) (msg : String),
      row.name ≠ "" → row.email ≠ "" →
      jsToLower row.email ∉ st.existingEmails →
      ¬(rowCleanPhone row ≠ "" ∧ rowCleanPhone row ∈ st.existingPhones) →
      oracle row = CreateOutcome.thrown msg →
      (containsSub (jsToLower msg) "duplicate" = true
        ∨ containsSub (jsToLower msg) "already exists" = true) →
      (processRowSingle oracle i st row).duplicateCount = st.duplicateCount + 1
      ∧ (processRowSingle oracle i st row).failedCount = st.failedCount)
  ∧ (∀ (oracle : SpreadsheetRow → CreateOutcome) (k i : Nat) (st : AllState)
        (row : SpreadsheetRow) (msg : String),
      row.name ≠ "" → row.email ≠ "" →
      jsToLower row.email ∉ st.emails →
      ¬(rowCleanPhone row ≠ "" ∧ rowCleanPhone row ∈ st.phones) →
      oracle row = CreateOutcome.thrown msg →
      ((containsSub (jsToLower msg) "duplicate" = true →
        (processRowAll oracle k i st row).totalDuplicates = st.totalDuplicates + 1
        ∧ (processRowAll oracle k i st row).totalFailed = st.totalFailed)
      ∧ (containsSub (jsToLower msg) "duplicate" = false →
        (processRowAll oracle k i st row).totalFailed = st.totalFailed + 1
        ∧ (processRowAll oracle k i st row).totalDuplicates = st.totalDuplicates)))
  ∧ (∀ (oracle : SpreadsheetRow → CreateOutcome) (i : Nat) (st : LoopState)
        (row : SpreadsheetRow) (rest : List SpreadsheetRow),
      processRows oracle i st (row :: rest)
        = processRows oracle (i + 1) (processRowSingle oracle i st row) rest)
  ∧ (∀ (oracle : SpreadsheetRow → CreateOutcome) (k i : Nat) (st : AllState)
        (row : SpreadsheetRow) (rest : List SpreadsheetRow),
      processRowsAll oracle k i st (row :: rest)
        = processRowsAll oracle k (i + 1) (processRowAll oracle k i st row) rest) := by
  refine ⟨?_, ?_, fun _ _ _ _ _ => rfl, fun _ _ _ _ _ _ => rfl⟩
  · intro oracle i st row msg hn he hmem hph ho hor
    rw [processRowSingle, if_pos ⟨hn, he⟩, if_neg hmem, if_neg hph, ho]
    dsimp only
    rw [if_pos ⟨msg_ne_of_contains_dup msg hor, hor⟩]
    exact ⟨rfl, rfl⟩
  · intro oracle k i st row msg hn he hmem hph ho
    constructor
    · intro hd
      rw [processRowAll, if_pos ⟨hn, he⟩, if_neg hmem, if_neg hph, ho]
      dsimp only
      rw [if_pos ⟨msg_ne_of_contains_dup msg (Or.inl hd), hd⟩]
      exact ⟨rfl, rfl⟩
    · intro hd
      rw [processRowAll, if_pos ⟨hn, he⟩, if_neg hmem, if_neg hph, ho]
      dsimp only
      rw [if_neg ?hx]
      case hx =>
        intro hcon
        have h2 := hcon.2
        rw [hd] at h2
        exact Bool.noConfusion h2
      exact ⟨rfl, rfl⟩

/-- Witness for C8: a thrown `already exists` message in the
single-spreadsheet loop is reclassified as duplicate, and a thrown
message without `duplicate` in the sync-all loop is a failure. -/
theorem C8_throw_reclassify_amended_witness :
    ((processRowSingle (fun _ => CreateOutcome.thrown "Lead already exists") 0
        (initLoopState [])
        { name := "bob", email := "b@x.com", phone := "", country := "", message := "",
          sourcePage := "", selectedPlan := "" }).duplicateCount
      = (initLoopState []).duplicateCount + 1
    ∧ (processRowSingle (fun _ => CreateOutcome.thrown "Lead already exists") 0
        (initLoopState [])
        { name := "bob", email := "b@x.com", phone := "", country := "", message := "",
          sourcePage := "", selectedPlan := "" }).failedCount
      = (initLoopState []).failedCount) :=
  C8_throw_reclassify_amended.1 (fun _ => CreateOutcome.thrown "Lead already exists") 0
    (initLoopState [])
    { name := "bob", email := "b@x.com", phone := "", country := "", message := "",
      sourcePage := "", selectedPlan := "" }
    "Lead already exists"
    (by decide) (by decide) (by decide) (by decide) rfl (Or.inr (by decide))

/-! ### Claim C2 -/

theorem parseCSVStep_valid (headers : List String) (st : ParseState) (line : String)
    (hinv : ∀ r ∈ st.rows, r.name ≠ "" ∧ r.email ≠ "") :
    ∀ r ∈ (parseCSVStep headers st line).rows, r.name ≠ "" ∧ r.email ≠ "" := by
  intro r hr
  rw [parseCSVStep] at hr
  by_cases h1 : (mkDataRow headers line).name = "" ∨ (mkDataRow headers line).email = ""
  · rw [if_pos h1] at hr
    exact hinv r hr
  · rw [if_neg h1] at hr
    push_neg at h1
    by_cases h2 : (mkDataRow headers line).phone ≠ "" ∧ (mkDataRow headers line).phone ∈ st.seenPhones
    · rw [if_pos h2] at hr
      exact hinv r hr
    · rw [if_neg h2] at hr
      by_cases h3 : (mkDataRow headers line).email ∈ st.seenEmails
      · rw [if_pos h3] at hr
        exact hinv r hr
      · rw [if_neg h3] at hr
        rcases List.mem_append.mp hr with hr | hr
        · exact hinv r hr
        · rw [List.mem_singleton.mp hr]
          exact h1

theorem foldl_parseCSVStep_valid (headers : List String) (lines : List String) :
    ∀ (st : ParseState), (∀ r ∈ st.rows, r.name ≠ "" ∧ r.email ≠ "") →
    ∀ r ∈ (lines.foldl (parseCSVStep headers) st).rows, r.name ≠ "" ∧ r.email ≠ "" := by
  induction lines with
  | nil => intro st h; simpa using h
  | cons line rest ih =>
    intro st h
    rw [List.foldl_cons]
    exact ih _ (parseCSVStep_valid headers st line h)

theorem parseCSV_rows_valid (csv : String) :
    ∀ r ∈ parseCSV csv, r.name ≠ "" ∧ r.email ≠ "" := by
  cases hnb : nonBlankLines csv with
  | nil =>
    rw [parseCSV, hnb]
    intro r hr
    exact absurd hr (List.not_mem_nil r)
  | cons hline t =>
    rw [parseCSV, hnb]
    exact foldl_parseCSVStep_valid (csvHeaders csv) t
      { seenPhones := [], seenEmails := [], rows := [] }
      (fun r hr => absurd hr (List.not_mem_nil r))

/-- Counterexample to claim C2 as stated: the CSV has a data row
(`bob,`) lacking an email, yet the run reports zero failures and an
empty error log - the row was dropped inside `parseCSV`
(JobsList.tsx:672) before the orchestrator loop could count it. -/
theorem C2_uncounted_invalid_row_cex :
    csvDataLines "name,email\nbob,\nalice,a@x.com" = ["bob,", "alice,a@x.com"]
  ∧ (mkDataRow (csvHeaders "name,email\nbob,\nalice,a@x.com") "bob,").email = ""
  ∧ (mkDataRow (csvHeaders "name,email\nbob,\nalice,a@x.com") "bob,").name = "bob"
  ∧ (processSpreadsheet "S" true true (FetchOutcome.ok "name,email\nbob,\nalice,a@x.com") []
      (fun _ => CreateOutcome.resolved true "") false).importResults =
      some { spreadsheetName := "S", success := 1, failed := 0, duplicates := 0,
             errors := [], status := RunStatus.success } := by
  refine ⟨?_, ?_, ?_, ?_⟩ <;> decide

/-- Claim C2 (corrected): a data row lacking a non-empty name or email
after normalization is discarded by `parseCSV` and never reaches the
orchestrator's row loop, so it is not counted in the failed count and
produces no error-log entry; every row the loop sees has non-empty name
and email, and a failure increment for such a row can only come from a
creation call (the loop's missing-field branch, which issues no call,
is unreachable for parsed rows). -/
theorem C2_missing_fields_dropped (csv : String) (row : SpreadsheetRow)
    (h : row ∈ parseCSV csv) :
    (row.name ≠ "" ∧ row.email ≠ "")
  ∧ ∀ (oracle : SpreadsheetRow → CreateOutcome) (i : Nat) (st : LoopState),
      (processRowSingle oracle i st row).failedCount = st.failedCount + 1 →
      (processRowSingle oracle i st row).calls = st.calls ++ [row] := by
  have hv := parseCSV_rows_valid csv row h
  refine ⟨hv, ?_⟩
  intro oracle i st hf
  rw [processRowSingle, if_pos hv] at hf ⊢
  by_cases h2 : jsToLower row.email ∈ st.existingEmails
  · rw [if_pos h2] at hf
    exact absurd hf (by dsimp only; omega)
  · rw [if_neg h2] at hf ⊢
    by_cases h3 : rowCleanPhone row ≠ "" ∧ rowCleanPhone row ∈ st.existingPhones
    · rw [if_pos h3] at hf
      exact absurd hf (by dsimp only; omega)
    · rw [if_neg h3] at hf ⊢
      clear hf
      cases ho : oracle row with
      | resolved ok msg => rfl
      | thrown msg =>
        dsimp only
        by_cases h4 : msg ≠ "" ∧ (containsSub (jsToLower msg) "duplicate" = true
            ∨ containsSub (jsToLower msg) "already exists" = true)
        · rw [if_pos h4]
        · rw [if_neg h4]

/-- Witness for C2: the valid surviving row of the counterexample CSV
satisfies the theorem's conclusion. -/
theorem C2_missing_fields_dropped_witness :
    ({ name := "alice", email := "a@x.com", phone := "", country := "", message := "",
       sourcePage := "", selectedPlan := "" } : SpreadsheetRow).name ≠ ""
  ∧ ({ name := "alice", email := "a@x.com", phone := "", country := "", message := "",
       sourcePage := "", selectedPlan := "" } : SpreadsheetRow).email ≠ "" :=
  (C2_missing_fields_dropped "name,email\nbob,\nalice,a@x.com"
    { name := "alice", email := "a@x.com", phone := "", country := "", message := "",
      sourcePage := "", selectedPlan := "" } (by decide)).1

/-! ### Claim C5 -/

/-- Counterexample to claim C5 as stated: for a CSV parsing to zero
rows the run is classified `no_data`, but nothing is appended to the
sync-history ring buffer - the catch path calls `setImportResults`
only (JobsList.tsx:1003-1012), never `setSyncHistory`
(JobsList.tsx:969, success path only). -/
theorem C5_history_not_appended_cex :
    (processSpreadsheet "S" true true (FetchOutcome.ok "") []
      (fun _ => CreateOutcome.resolved true "") false).historyAppend = []
  ∧ (processSpreadsheet "S" true true (FetchOutcome.ok "") []
      (fun _ => CreateOutcome.resolved true "") false).importResults =
      some { spreadsheetName := "S", success := 0, failed := 0, duplicates := 0,
             errors := ["No data found in spreadsheet"], status := RunStatus.no_data } := by
  constructor <;> decide

/-- Claim C5 (corrected): a run whose fetched CSV parses to zero rows
is classified `no_data` and emits no error toast, and its
`ImportResult` is stored as the current import result - but it is not
appended to the sync-history ring buffer, which only the
successful-parse path updates. -/
theorem C5_no_data_amended (name body : String) (leads : List ExistingLead)
    (oracle : SpreadsheetRow → CreateOutcome) (ut : Bool)
    (h : parseCSV body = []) :
    (processSpreadsheet name true true (FetchOutcome.ok body) leads oracle ut).importResults =
      some { spreadsheetName := name, success := 0, failed := 0, duplicates := 0,
             errors := ["No data found in spreadsheet"], status := RunStatus.no_data }
  ∧ (processSpreadsheet name true true (FetchOutcome.ok body) leads oracle ut).historyAppend = []
  ∧ ∀ t ∈ (processSpreadsheet name true true (FetchOutcome.ok body) leads oracle ut).toasts,
      t.1 ≠ ToastKind.error := by
  have hred : processSpreadsheet name true true (FetchOutcome.ok body) leads oracle ut
      = importCatch name "No data found in spreadsheet" := by
    simp [processSpreadsheet, h]
  rw [hred, importCatch,
    if_pos (by decide : containsSub "No data found in spreadsheet" "No data" = true)]
  refine ⟨rfl, rfl, ?_⟩
  intro t ht
  exact absurd ht (List.not_mem_nil t)

/-- Witness for C5: the amended theorem instantiated at the empty CSV
body. -/
theorem C5_no_data_amended_witness :
    (processSpreadsheet "S" true true (FetchOutcome.ok "") []
        (fun _ => CreateOutcome.resolved true "") true).importResults =
      some { spreadsheetName := "S", success := 0, failed := 0, duplicates := 0,
             errors := ["No data found in spreadsheet"], status := RunStatus.no_data }
  ∧ (processSpreadsheet "S" true true (FetchOutcome.ok "") []
        (fun _ => CreateOutcome.resolved true "") true).historyAppend = [] :=
  ⟨(C5_no_data_amended "S" "" [] (fun _ => CreateOutcome.resolved true "") true (by decide)).1,
   (C5_no_data_amended "S" "" [] (fun _ => CreateOutcome.resolved true "") true (by decide)).2.1⟩

/-! ### Claim C9 -/

/-- Counterexample to claim C9 as stated: on a fetch failure and on a
no-data outcome, no `last_synced` persistence is attempted - the
update call sits inside the try block after the row loop
(JobsList.tsx:971-975) and is skipped by the catch path. -/
theorem C9_no_attempt_cex :
    (processSpreadsheet "S" true true (FetchOutcome.httpError 500) []
      (fun _ => CreateOutcome.resolved true "") false).lastSyncedAttempted = false
  ∧ (processSpreadsheet "S" true true (FetchOutcome.ok "") []
      (fun _ => CreateOutcome.resolved true "") false).lastSyncedAttempted = false := by
  constructor <;> decide

/-- Claim C9 (corrected): the `last_synced` persistence is attempted
exactly on runs that complete the row loop (fetch succeeded and the
parse produced at least one row); on fetch-failure, no-data and other
catch-path outcomes no attempt is made.  When the attempt is made and
fails, the failure is only logged: the recorded result, the history
and the toasts are identical whether or not the persistence call
throws. -/
theorem C9_last_synced_amended (name body : String) (leads : List ExistingLead)
    (oracle : SpreadsheetRow → CreateOutcome) (code : Nat) :
    (parseCSV body ≠ [] → ∀ ut : Bool,
      (processSpreadsheet name true true (FetchOutcome.ok body) leads oracle ut).lastSyncedAttempted = true)
  ∧ (parseCSV body = [] → ∀ ut : Bool,
      (processSpreadsheet name true true (FetchOutcome.ok body) leads oracle ut).lastSyncedAttempted = false)
  ∧ (∀ ut : Bool,
      (processSpreadsheet name true true (FetchOutcome.httpError code) leads oracle ut).lastSyncedAttempted = false)
  ∧ (∀ f : FetchOutcome,
      (processSpreadsheet name true true f leads oracle true).importResults
        = (processSpreadsheet name true true f leads oracle false).importResults
      ∧ (processSpreadsheet name true true f leads oracle true).historyAppend
        = (processSpreadsheet name true true f leads oracle false).historyAppend
      ∧ (processSpreadsheet name true true f leads oracle true).toasts
        = (processSpreadsheet name true true f leads oracle false).toasts) := by
  refine ⟨?_, ?_, ?_, ?_⟩
  · intro h ut
    simp [processSpreadsheet, runRecord, h]
  · intro h ut
    simp [processSpreadsheet, h, importCatch]
  · intro ut
    simp [processSpreadsheet, importCatch]
  · intro f
    cases f with
    | httpError c => exact ⟨rfl, rfl, rfl⟩
    | ok b =>
      by_cases hb : parseCSV b = []
      · simp [processSpreadsheet, hb]
      · simp [processSpreadsheet, hb, runRecord]

/-- Witness for C9: a one-row run attempts the persistence even when
the persistence call throws, and a no-data run does not attempt it. -/
theorem C9_last_synced_amended_witness :
    (processSpreadsheet "S" true true (FetchOutcome.ok "name,email\na,a@x.com") []
        (fun _ => CreateOutcome.resolved true "") true).lastSyncedAttempted = true
  ∧ (processSpreadsheet "S" true true (FetchOutcome.ok "") []
        (fun _ => CreateOutcome.resolved true "") true).lastSyncedAttempted = false :=
  ⟨(C9_last_synced_amended "S" "name,email\na,a@x.com" []
      (fun _ => CreateOutcome.resolved true "") 500).1 (by decide) true,
   (C9_last_synced_amended "S" "" []
      (fun _ => CreateOutcome.resolved true "") 500).2.1 (by decide) true⟩

/-! ### Claim C1 -/

theorem parseCSV_eq_parseState_rows (csv : String) :
    parseCSV csv = (parseState csv).rows := by
  cases hnb : nonBlankLines csv with
  | nil =>
    rw [parseCSV, hnb, parseState, csvDataLines, hnb]
    rfl
  | cons hline t =>
    rw [parseCSV, hnb, parseState, csvDataLines, hnb]
    rfl

theorem parseCSVStep_rows_mono (headers : List String) (line : String) (st : ParseState)
    (r : SpreadsheetRow) (hr : r ∈ st.rows) :
    r ∈ (parseCSVStep headers st line).rows := by
  rw [parseCSVStep]
  by_cases c1 : (mkDataRow headers line).name = "" ∨ (mkDataRow headers line).email = ""
  · rw [if_pos c1]; exact hr
  · rw [if_neg c1]
    by_cases c2 : (mkDataRow headers line).phone ≠ "" ∧ (mkDataRow headers line).phone ∈ st.seenPhones
    · rw [if_pos c2]; exact hr
    · rw [if_neg c2]
      by_cases c3 : (mkDataRow headers line).email ∈ st.seenEmails
      · rw [if_pos c3]; exact hr
      · rw [if_neg c3]
        exact List.mem_append_left _ hr

theorem foldl_parseCSVStep_rows_mono (headers : List String) (lines : List String) :
    ∀ (st : ParseState) (r : SpreadsheetRow), r ∈ st.rows →
    r ∈ (lines.foldl (parseCSVStep headers) st).rows := by
  induction lines with
  | nil => intro st r hr; simpa using hr
  | cons line rest ih =>
    intro st r hr
    rw [List.foldl_cons]
    exact ih _ r (parseCSVStep_rows_mono headers line st r hr)

theorem parseCSVStep_accepts (headers : List String) (line : String) (st : ParseState)
    (hn : (mkDataRow headers line).name ≠ "") (he : (mkDataRow headers line).email ≠ "")
    (hp : ¬((mkDataRow headers line).phone ≠ "" ∧ (mkDataRow headers line).phone ∈ st.seenPhones))
    (hm : (mkDataRow headers line).email ∉ st.seenEmails) :
    mkDataRow headers line ∈ (parseCSVStep headers st line).rows := by
  rw [parseCSVStep, if_neg (by push_neg; exact ⟨hn, he⟩), if_neg hp, if_neg hm]
  exact List.mem_append_right _ (List.mem_singleton.mpr rfl)

theorem parseCSVStep_inv (headers : List String) (line : String) (st : ParseState)
    (h1 : st.seenEmails = st.rows.map SpreadsheetRow.email)
    (h2 : st.seenPhones = (st.rows.map SpreadsheetRow.phone).filter (fun p => decide (p ≠ "")))
    (h3 : st.seenEmails.Nodup) (h4 : st.seenPhones.Nodup) :
    (parseCSVStep headers st line).seenEmails
        = (parseCSVStep headers st line).rows.map SpreadsheetRow.email
    ∧ (parseCSVStep headers st line).seenPhones
        = ((parseCSVStep headers st line).rows.map SpreadsheetRow.phone).filter
            (fun p => decide (p ≠ ""))
    ∧ (parseCSVStep headers st line).seenEmails.Nodup
    ∧ (parseCSVStep headers st line).seenPhones.Nodup := by
  rw [parseCSVStep]
  by_cases c1 : (mkDataRow headers line).name = "" ∨ (mkDataRow headers line).email = ""
  · rw [if_pos c1]; exact ⟨h1, h2, h3, h4⟩
  · rw [if_neg c1]
    by_cases c2 : (mkDataRow headers line).phone ≠ "" ∧ (mkDataRow headers line).phone ∈ st.seenPhones
    · rw [if_pos c2]; exact ⟨h1, h2, h3, h4⟩
    · rw [if_neg c2]
      by_cases c3 : (mkDataRow headers line).email ∈ st.seenEmails
      · rw [if_pos c3]; exact ⟨h1, h2, h3, h4⟩
      · rw [if_neg c3]
        refine ⟨?_, ?_, ?_, ?_⟩
        · rw [List.map_append, h1]
          rfl
        · rw [List.map_append, List.filter_append, h2]
          by_cases cp : (mkDataRow headers line).phone = ""
          · rw [if_neg (fun hne => hne cp)]
            simp [cp]
          · rw [if_pos cp]
            simp [cp]
        · refine List.nodup_append.mpr ⟨h3, List.nodup_singleton _, ?_⟩
          intro x hx hy
          rw [List.mem_singleton] at hy
          subst hy
          exact c3 hx
        · by_cases cp : (mkDataRow headers line).phone = ""
          · rw [if_neg (fun hne => hne cp)]
            simpa using h4
          · rw [if_pos cp]
            refine List.nodup_append.mpr ⟨h4, List.nodup_singleton _, ?_⟩
            intro x hx hy
            rw [List.mem_singleton] at hy
            subst hy
            exact c2 ⟨cp, hx⟩

theorem foldl_parseCSVStep_inv (headers : List String) (lines : List String) :
    ∀ (st : ParseState),
    st.seenEmails = st.rows.map SpreadsheetRow.email →
    st.seenPhones = (st.rows.map SpreadsheetRow.phone).filter (fun p => decide (p ≠ "")) →
    st.seenEmails.Nodup → st.seenPhones.Nodup →
    (lines.foldl (parseCSVStep headers) st).seenEmails
        = ((lines.foldl (parseCSVStep headers) st).rows.map SpreadsheetRow.email)
    ∧ (lines.foldl (parseCSVStep headers) st).seenPhones
        = (((lines.foldl (parseCSVStep headers) st).rows.map SpreadsheetRow.phone).filter
            (fun p => decide (p ≠ "")))
    ∧ (lines.foldl (parseCSVStep headers) st).seenEmails.Nodup
    ∧ (lines.foldl (parseCSVStep headers) st).seenPhones.Nodup := by
  induction lines with
  | nil => intro st h1 h2 h3 h4; exact ⟨h1, h2, h3, h4⟩
  | cons line rest ih =>
    intro st h1 h2 h3 h4
    rw [List.foldl_cons]
    have hstep := parseCSVStep_inv headers line st h1 h2 h3 h4
    exact ih _ hstep.1 hstep.2.1 hstep.2.2.1 hstep.2.2.2

/-- Counterexample to claim C1 as stated: data rows 2 and 3 of this
sheet share the email `e2@x.com`, but the retained row is the later
one (row 3, name `c`) - the earlier row (name `b`) was skipped by the
duplicate-phone check before its email could be recorded, so "first
occurrence wins" fails for the email key. -/
theorem C1_first_occurrence_cex :
    parseCSV "name,email,phone\na,e1@x.com,111\nb,e2@x.com,111\nc,e2@x.com,222"
      = [{ name := "a", email := "e1@x.com", phone := "111", country := "", message := "",
           sourcePage := "", selectedPlan := "" },
         { name := "c", email := "e2@x.com", phone := "222", country := "", message := "",
           sourcePage := "", selectedPlan := "" }]
  ∧ csvDataLines "name,email,phone\na,e1@x.com,111\nb,e2@x.com,111\nc,e2@x.com,222"
      = ["a,e1@x.com,111", "b,e2@x.com,111", "c,e2@x.com,222"]
  ∧ (mkDataRow (csvHeaders "name,email,phone\na,e1@x.com,111\nb,e2@x.com,111\nc,e2@x.com,222")
      "b,e2@x.com,111").email = "e2@x.com"
  ∧ (mkDataRow (csvHeaders "name,email,phone\na,e1@x.com,111\nb,e2@x.com,111\nc,e2@x.com,222")
      "b,e2@x.com,111").name = "b" := by
  refine ⟨?_, ?_, ?_, ?_⟩ <;> decide

/-- Claim C1 (corrected): `parseCSV` returns at most one row per
distinct email and at most one row per distinct non-empty phone, rows
with an empty phone are never added to the seen-phones set (the final
seen-sets are exactly the emails, resp. the non-empty phones, of the
output), and the retained row for a shared key is the first data row
that is valid and survives the earlier dedup checks at its turn - an
earlier row sharing the email may itself have been skipped for a
missing field or a duplicate phone, in which case a later row with
that email is the one retained. -/
theorem C1_parse_dedup_amended (csv : String) :
    ((parseCSV csv).map SpreadsheetRow.email).Nodup
  ∧ (((parseCSV csv).map SpreadsheetRow.phone).filter (fun p => decide (p ≠ ""))).Nodup
  ∧ (parseState csv).seenEmails = (parseCSV csv).map SpreadsheetRow.email
  ∧ (parseState csv).seenPhones
      = ((parseCSV csv).map SpreadsheetRow.phone).filter (fun p => decide (p ≠ ""))
  ∧ (∀ l1 line l2, csvDataLines csv = l1 ++ line :: l2 →
      (mkDataRow (csvHeaders csv) line).name ≠ "" →
      (mkDataRow (csvHeaders csv) line).email ≠ "" →
      ¬((mkDataRow (csvHeaders csv) line).phone ≠ ""
        ∧ (mkDataRow (csvHeaders csv) line).phone ∈ (parseFold (csvHeaders csv) l1).seenPhones) →
      (mkDataRow (csvHeaders csv) line).email ∉ (parseFold (csvHeaders csv) l1).seenEmails →
      mkDataRow (csvHeaders csv) line ∈ parseCSV csv) := by
  have hrows := parseCSV_eq_parseState_rows csv
  have hinv := foldl_parseCSVStep_inv (csvHeaders csv) (csvDataLines csv)
    { seenPhones := [], seenEmails := [], rows := [] } rfl rfl List.nodup_nil List.nodup_nil
  rw [parseState] at hrows
  rw [parseFold] at hrows
  refine ⟨?_, ?_, ?_, ?_, ?_⟩
  · rw [hrows]
    exact hinv.1 ▸ hinv.2.2.1
  · rw [hrows]
    exact hinv.2.1 ▸ hinv.2.2.2
  · rw [parseState, parseFold, hrows]
    exact hinv.1
  · rw [parseState, parseFold, hrows]
    exact hinv.2.1
  · intro l1 line l2 hdec hn he hp hm
    rw [hrows, hdec, List.foldl_append, List.foldl_cons]
    have hacc := parseCSVStep_accepts (csvHeaders csv) line
      (l1.foldl (parseCSVStep (csvHeaders csv)) { seenPhones := [], seenEmails := [], rows := [] })
      hn he (by rw [parseFold] at hp; exact hp) (by rw [parseFold] at hm; exact hm)
    exact foldl_parseCSVStep_rows_mono (csvHeaders csv) l2 _ _ hacc

/-- Witness for C1: in the counterexample sheet, the third data row
(name `c`) is valid and survives both checks after the first two lines
were processed, so the theorem places it in the output. -/
theorem C1_parse_dedup_amended_witness :
    mkDataRow (csvHeaders "name,email,phone\na,e1@x.com,111\nb,e2@x.com,111\nc,e2@x.com,222")
      "c,e2@x.com,222"
    ∈ parseCSV "name,email,phone\na,e1@x.com,111\nb,e2@x.com,111\nc,e2@x.com,222" :=
  (C1_parse_dedup_amended "name,email,phone\na,e1@x.com,111\nb,e2@x.com,111\nc,e2@x.com,222").2.2.2.2
    ["a,e1@x.com,111", "b,e2@x.com,111"] "c,e2@x.com,222" []
    (by decide) (by decide) (by decide) (by decide) (by decide)

/-! ### Claim C4 -/

theorem snoc_eq_append_cons {α : Type} (tr l1 l2 : List α) (x ev : α)
    (h : tr ++ [ev] = l1 ++ x :: l2) :
    (l1 = tr ∧ x = ev ∧ l2 = []) ∨ ∃ l2a, l2 = l2a ++ [ev] ∧ tr = l1 ++ x :: l2a := by
  rcases List.eq_nil_or_concat l2 with h2 | ⟨L, b, h2⟩
  · subst h2
    have h3 : tr ++ [ev] = l1 ++ [x] := h
    obtain ⟨he1, he2⟩ := List.append_inj' h3 rfl
    exact Or.inl ⟨he1.symm, (List.cons.injEq _ _ _ _).mp he2.symm |>.1, rfl⟩
  · subst h2
    have h3 : tr ++ [ev] = (l1 ++ x :: L) ++ [b] := by
      rw [h]
      simp [List.concat_eq_append]
    obtain ⟨he1, he2⟩ := List.append_inj' h3 rfl
    have hb : b = ev := ((List.cons.injEq _ _ _ _).mp he2.symm).1
    subst hb
    exact Or.inr ⟨L, by simp [List.concat_eq_append], he1⟩

theorem two_in_filter {α : Type} (f : α → Bool) (l : List α) (h : 2 ≤ (l.filter f).length) :
    ∃ l1 x l2, l = l1 ++ x :: l2 ∧ f x = true ∧ ∃ y, y ∈ l2 ∧ f y = true := by
  induction l with
  | nil => simp at h
  | cons a l ih =>
    by_cases hf : f a = true
    · have hlen : 1 ≤ (l.filter f).length := by
        rw [List.filter_cons_of_pos hf] at h
        simpa using h
      have hne : l.filter f ≠ [] := by
        intro h0
        rw [h0] at hlen
        simp at hlen
      obtain ⟨y, hy⟩ := List.exists_mem_of_ne_nil _ hne
      obtain ⟨hyl, hyf⟩ := List.mem_filter.mp hy
      exact ⟨[], a, l, rfl, hf, y, hyl, hyf⟩
    · have h2 : 2 ≤ (l.filter f).length := by
        rw [List.filter_cons_of_neg (by simpa using hf)] at h
        exact h
      obtain ⟨l1, x, l2, hl, hx, hy⟩ := ih h2
      exact ⟨a :: l1, x, l2, by rw [hl]; rfl, hx, hy⟩

theorem traceA_snoc (tr : List RowEvent) (emails phones nemails nphones : List String)
    (ev : RowEvent)
    (hA : ∀ l1 k e p l2, tr = l1 ++ RowEvent.created k e p :: l2 →
      ((∀ ev2 ∈ l2, (evEmail ev2 = e → isDupEv ev2 = true)
          ∧ (p ≠ "" → evPhone ev2 = p → isDupEv ev2 = true))
       ∧ e ∈ emails ∧ (p ≠ "" → p ∈ phones)))
    (hmonoE : ∀ x, x ∈ emails → x ∈ nemails)
    (hmonoP : ∀ x, x ∈ phones → x ∈ nphones)
    (hnew : isDupEv ev = true
      ∨ (evEmail ev ∉ emails ∧ (evPhone ev ≠ "" → evPhone ev ∉ phones)))
    (hself : ∀ k e p, ev = RowEvent.created k e p → e ∈ nemails ∧ (p ≠ "" → p ∈ nphones)) :
    ∀ l1 k e p l2, tr ++ [ev] = l1 ++ RowEvent.created k e p :: l2 →
      ((∀ ev2 ∈ l2, (evEmail ev2 = e → isDupEv ev2 = true)
          ∧ (p ≠ "" → evPhone ev2 = p → isDupEv ev2 = true))
       ∧ e ∈ nemails ∧ (p ≠ "" → p ∈ nphones)) := by
  intro l1 k e p l2 h
  rcases snoc_eq_append_cons tr l1 l2 (RowEvent.created k e p) ev h with
    ⟨hl1, hx, hl2⟩ | ⟨l2a, hl2, htr⟩
  · subst hl2
    obtain ⟨hse, hsp⟩ := hself k e p hx.symm
    exact ⟨fun ev2 h2 => absurd h2 (List.not_mem_nil ev2), hse, hsp⟩
  · subst hl2
    obtain ⟨hprev, hmem_e, hmem_p⟩ := hA l1 k e p l2a htr
    refine ⟨?_, hmonoE _ hmem_e, fun hp => hmonoP _ (hmem_p hp)⟩
    intro ev2 h2
    rcases List.mem_append.mp h2 with h2 | h2
    · exact hprev ev2 h2
    · rw [List.mem_singleton] at h2
      subst h2
      rcases hnew with hdup | ⟨hne, hnp⟩
      · exact ⟨fun _ => hdup, fun _ _ => hdup⟩
      · constructor
        · intro heq
          exact absurd (by rw [heq]; exact hmem_e) hne
        · intro hp heq
          refine absurd (by rw [heq]; exact hmem_p hp) (hnp ?_)
          rw [heq]
          exact hp

theorem processRowAll_inv (oracle : SpreadsheetRow → CreateOutcome) (k i : Nat)
    (st : AllState) (row : SpreadsheetRow)
    (hv : row.name ≠ "" ∧ row.email ≠ "")
    (hA : ∀ l1 kk e p l2, st.trace = l1 ++ RowEvent.created kk e p :: l2 →
      ((∀ ev2 ∈ l2, (evEmail ev2 = e → isDupEv ev2 = true)
          ∧ (p ≠ "" → evPhone ev2 = p → isDupEv ev2 = true))
       ∧ e ∈ st.emails ∧ (p ≠ "" → p ∈ st.phones)))
    (hB : ∀ x ∈ st.emails, x ≠ "")
    (hC : ∀ x ∈ st.phones, x ≠ "")
    (hD : st.totalSuccess = (st.trace.filter isCreatedEv).length)
    (hE : st.totalDuplicates = (st.trace.filter isDupEv).length)
    (hF : st.totalFailed = (st.trace.filter isFailEv).length) :
    (∀ l1 kk e p l2,
      (processRowAll oracle k i st row).trace = l1 ++ RowEvent.created kk e p :: l2 →
      ((∀ ev2 ∈ l2, (evEmail ev2 = e → isDupEv ev2 = true)
          ∧ (p ≠ "" → evPhone ev2 = p → isDupEv ev2 = true))
       ∧ e ∈ (processRowAll oracle k i st row).emails
       ∧ (p ≠ "" → p ∈ (processRowAll oracle k i st row).phones)))
    ∧ (∀ x ∈ (processRowAll oracle k i st row).emails, x ≠ "")
    ∧ (∀ x ∈ (processRowAll oracle k i st row).phones, x ≠ "")
    ∧ (processRowAll oracle k i st row).totalSuccess
        = ((processRowAll oracle k i st row).trace.filter isCreatedEv).length
    ∧ (processRowAll oracle k i st row).totalDuplicates
        = ((processRowAll oracle k i st row).trace.filter isDupEv).length
    ∧ (processRowAll oracle k i st row).totalFailed
        = ((processRowAll oracle k i st row).trace.filter isFailEv).length := by
  rw [processRowAll, if_pos hv]
  by_cases h2 : jsToLower row.email ∈ st.emails
  · rw [if_pos h2]
    dsimp only
    refine ⟨?_, hB, hC, ?_, ?_, ?_⟩
    · exact traceA_snoc st.trace st.emails st.phones st.emails st.phones _
        hA (fun x hx => hx) (fun x hx => hx) (Or.inl rfl)
        (fun kk e p hcon => RowEvent.noConfusion hcon)
    · rw [List.filter_append, hD, List.length_append]
      simp [isCreatedEv]
    · rw [List.filter_append, hE, List.length_append]
      simp [isDupEv]
    · rw [List.filter_append, hF, List.length_append]
      simp [isFailEv]
  · rw [if_neg h2]
    by_cases h3 : rowCleanPhone row ≠ "" ∧ rowCleanPhone row ∈ st.phones
    · rw [if_pos h3]
      dsimp only
      refine ⟨?_, hB, hC, ?_, ?_, ?_⟩
      · exact traceA_snoc st.trace st.emails st.phones st.emails st.phones _
          hA (fun x hx => hx) (fun x hx => hx) (Or.inl rfl)
          (fun kk e p hcon => RowEvent.noConfusion hcon)
      · rw [List.filter_append, hD, List.length_append]
        simp [isCreatedEv]
      · rw [List.filter_append, hE, List.length_append]
        simp [isDupEv]
      · rw [List.filter_append, hF, List.length_append]
        simp [isFailEv]
    · rw [if_neg h3]
      cases ho : oracle row with
      | resolved ok msg =>
        cases ok with
        | true =>
          dsimp only
          refine ⟨?_, ?_, ?_, ?_, ?_, ?_⟩
          · refine traceA_snoc st.trace st.emails st.phones
              (st.emails ++ [jsToLower row.email])
              (st.phones ++ (if rowCleanPhone row ≠ "" then [rowCleanPhone row] else [])) _
              hA (fun x hx => List.mem_append_left _ hx) (fun x hx => List.mem_append_left _ hx)
              (Or.inr ⟨h2, fun hp hmem => h3 ⟨hp, hmem⟩⟩) ?_
            intro kk e p hcon
            cases hcon
            constructor
            · exact List.mem_append_right _ (List.mem_singleton.mpr rfl)
            · intro hp
              rw [if_pos hp]
              exact List.mem_append_right _ (List.mem_singleton.mpr rfl)
          · intro x hx
            rcases List.mem_append.mp hx with hx | hx
            · exact hB x hx
            · rw [List.mem_singleton] at hx
              subst hx
              exact jsToLower_ne_empty row.email hv.2
          · intro x hx
            rcases List.mem_append.mp hx with hx | hx
            · exact hC x hx
            · by_cases hcp : rowCleanPhone row ≠ ""
              · rw [if_pos hcp, List.mem_singleton] at hx
                subst hx
                exact hcp
              · rw [if_neg hcp] at hx
                exact absurd hx (List.not_mem_nil x)
          · rw [List.filter_append, hD, List.length_append]
            simp [isCreatedEv]
          · rw [List.filter_append, hE, List.length_append]
            simp [isDupEv]
          · rw [List.filter_append, hF, List.length_append]
            simp [isFailEv]
        | false =>
          dsimp only
          refine ⟨?_, hB, hC, ?_, ?_, ?_⟩
          · exact traceA_snoc st.trace st.emails st.phones st.emails st.phones _
              hA (fun x hx => hx) (fun x hx => hx)
              (Or.inr ⟨h2, fun hp hmem => h3 ⟨hp, hmem⟩⟩)
              (fun kk e p hcon => RowEvent.noConfusion hcon)
          · rw [List.filter_append, hD, List.length_append]
            simp [isCreatedEv]
          · rw [List.filter_append, hE, List.length_append]
            simp [isDupEv]
          · rw [List.filter_append, hF, List.length_append]
            simp [isFailEv]
      | thrown msg =>
        dsimp only
        by_cases h4 : msg ≠ "" ∧ containsSub (jsToLower msg) "duplicate" = true
        · rw [if_pos h4]
          dsimp only
          refine ⟨?_, hB, hC, ?_, ?_, ?_⟩
          · exact traceA_snoc st.trace st.emails st.phones st.emails st.phones _
              hA (fun x hx => hx) (fun x hx => hx) (Or.inl rfl)
              (fun kk e p hcon => RowEvent.noConfusion hcon)
          · rw [List.filter_append, hD, List.length_append]
            simp [isCreatedEv]
          · rw [List.filter_append, hE, List.length_append]
            simp [isDupEv]
          · rw [List.filter_append, hF, List.length_append]
            simp [isFailEv]
        · rw [if_neg h4]
          dsimp only
          refine ⟨?_, hB, hC, ?_, ?_, ?_⟩
          · exact traceA_snoc st.trace st.emails st.phones st.emails st.phones _
              hA (fun x hx => hx) (fun x hx => hx)
              (Or.inr ⟨h2, fun hp hmem => h3 ⟨hp, hmem⟩⟩)
              (fun kk e p hcon => RowEvent.noConfusion hcon)
          · rw [List.filter_append, hD, List.length_append]
            simp [isCreatedEv]
          · rw [List.filter_append, hE, List.length_append]
            simp [isDupEv]
          · rw [List.filter_append, hF, List.length_append]
            simp [isFailEv]

theorem processRowsAll_inv (oracle : SpreadsheetRow → CreateOutcome) (k : Nat) :
    ∀ (rows : List SpreadsheetRow), (∀ r ∈ rows, r.name ≠ "" ∧ r.email ≠ "") →
    ∀ (i : Nat) (st : AllState),
    (∀ l1 kk e p l2, st.trace = l1 ++ RowEvent.created kk e p :: l2 →
      ((∀ ev2 ∈ l2, (evEmail ev2 = e → isDupEv ev2 = true)
          ∧ (p ≠ "" → evPhone ev2 = p → isDupEv ev2 = true))
       ∧ e ∈ st.emails ∧ (p ≠ "" → p ∈ st.phones))) →
    (∀ x ∈ st.emails, x ≠ "") →
    (∀ x ∈ st.phones, x ≠ "") →
    st.totalSuccess = (st.trace.filter isCreatedEv).length →
    st.totalDuplicates = (st.trace.filter isDupEv).length →
    st.totalFailed = (st.trace.filter isFailEv).length →
    (∀ l1 kk e p l2,
      (processRowsAll oracle k i st rows).trace = l1 ++ RowEvent.created kk e p :: l2 →
      ((∀ ev2 ∈ l2, (evEmail ev2 = e → isDupEv ev2 = true)
          ∧ (p ≠ "" → evPhone ev2 = p → isDupEv ev2 = true))
       ∧ e ∈ (processRowsAll oracle k i st rows).emails
       ∧ (p ≠ "" → p ∈ (processRowsAll oracle k i st rows).phones)))
    ∧ (∀ x ∈ (processRowsAll oracle k i st rows).emails, x ≠ "")
    ∧ (∀ x ∈ (processRowsAll oracle k i st rows).phones, x ≠ "")
    ∧ (processRowsAll oracle k i st rows).totalSuccess
        = ((processRowsAll oracle k i st rows).trace.filter isCreatedEv).length
    ∧ (processRowsAll oracle k i st rows).totalDuplicates
        = ((processRowsAll oracle k i st rows).trace.filter isDupEv).length
    ∧ (processRowsAll oracle k i st rows).totalFailed
        = ((processRowsAll oracle k i st rows).trace.filter isFailEv).length := by
  intro rows
  induction rows with
  | nil =>
    intro _ i st hA hB hC hD hE hF
    exact ⟨hA, hB, hC, hD, hE, hF⟩
  | cons row rest ih =>
    intro hv i st hA hB hC hD hE hF
    rw [processRowsAll]
    obtain ⟨a1, a2, a3, a4, a5, a6⟩ :=
      processRowAll_inv oracle k i st row (hv row (List.mem_cons_self row rest))
        hA hB hC hD hE hF
    exact ih (fun r hr => hv r (List.mem_cons_of_mem row hr)) (i + 1) _ a1 a2 a3 a4 a5 a6

theorem syncAllGo_inv (oracle : SpreadsheetRow → CreateOutcome) :
    ∀ (sheets : List SheetInput) (k : Nat) (st : AllState),
    (∀ l1 kk e p l2, st.trace = l1 ++ RowEvent.created kk e p :: l2 →
      ((∀ ev2 ∈ l2, (evEmail ev2 = e → isDupEv ev2 = true)
          ∧ (p ≠ "" → evPhone ev2 = p → isDupEv ev2 = true))
       ∧ e ∈ st.emails ∧ (p ≠ "" → p ∈ st.phones))) →
    (∀ x ∈ st.emails, x ≠ "") →
    (∀ x ∈ st.phones, x ≠ "") →
    st.totalSuccess = (st.trace.filter isCreatedEv).length →
    st.totalDuplicates = (st.trace.filter isDupEv).length →
    st.totalFailed = (st.trace.filter isFailEv).length →
    (∀ l1 kk e p l2,
      (syncAllGo oracle k st sheets).trace = l1 ++ RowEvent.created kk e p :: l2 →
      ((∀ ev2 ∈ l2, (evEmail ev2 = e → isDupEv ev2 = true)
          ∧ (p ≠ "" → evPhone ev2 = p → isDupEv ev2 = true))
       ∧ e ∈ (syncAllGo oracle k st sheets).emails
       ∧ (p ≠ "" → p ∈ (syncAllGo oracle k st sheets).phones)))
    ∧ (∀ x ∈ (syncAllGo oracle k st sheets).emails, x ≠ "")
    ∧ (∀ x ∈ (syncAllGo oracle k st sheets).phones, x ≠ "")
    ∧ (syncAllGo oracle k st sheets).totalSuccess
        = ((syncAllGo oracle k st sheets).trace.filter isCreatedEv).length
    ∧ (syncAllGo oracle k st sheets).totalDuplicates
        = ((syncAllGo oracle k st sheets).trace.filter isDupEv).length
    ∧ (syncAllGo oracle k st sheets).totalFailed
        = ((syncAllGo oracle k st sheets).trace.filter isFailEv).length := by
  intro sheets
  induction sheets with
  | nil =>
    intro k st hA hB hC hD hE hF
    exact ⟨hA, hB, hC, hD, hE, hF⟩
  | cons sheet rest ih =>
    intro k st hA hB hC hD hE hF
    rw [syncAllGo]
    by_cases hu : sheet.urlValid = false
    · rw [if_pos hu]
      exact ih (k + 1) st hA hB hC hD hE hF
    · rw [if_neg hu]
      cases hfet : sheet.fetch with
      | httpError c => exact ih (k + 1) st hA hB hC hD hE hF
      | ok body =>
        dsimp only
        by_cases hres : parseCSV body = []
        · rw [if_pos hres]
          exact ih (k + 1) st hA hB hC hD hE hF
        · rw [if_neg hres]
          obtain ⟨a1, a2, a3, a4, a5, a6⟩ :=
            processRowsAll_inv oracle k (parseCSV body) (parseCSV_rows_valid body) 0 st
              hA hB hC hD hE hF
          exact ih (k + 1) _ a1 a2 a3 a4 a5 a6

theorem mem_buildExistingEmails_ne (leads : List ExistingLead) :
    ∀ x ∈ buildExistingEmails leads, x ≠ "" :=
  fun _ hx => of_decide_eq_true (List.mem_filter.mp hx).2

theorem mem_buildExistingPhones_ne (leads : List ExistingLead) :
    ∀ x ∈ buildExistingPhones leads, x ≠ "" :=
  fun _ hx => of_decide_eq_true (List.mem_filter.mp hx).2

/-- Claim C4 (confirmed): in a sync-all run, one shared pair of
existing-email/phone sets is built once from the store before the
first spreadsheet (the initial state of `syncAll`) and mutated as leads
are created; consequently, once a creation event for an email (or
non-empty cleaned phone) appears in the run's trace, every later row
event carrying that email (or phone) - in the same or any later
spreadsheet - is a duplicate classification; a creation event for a
given email (or non-empty phone) therefore occurs at most once in the
whole run; and the run totals count exactly the created, duplicate and
failed events of the trace (so the one creation is the success counted
for the sheet that created it, identified by the event's sheet
index). -/
theorem C4_shared_sets_dedup (oracle : SpreadsheetRow → CreateOutcome)
    (leads : List ExistingLead) (sheets : List SheetInput) :
    (∀ l1 k e p l2,
      (syncAll oracle leads sheets).trace = l1 ++ RowEvent.created k e p :: l2 →
      ∀ ev2 ∈ l2, (evEmail ev2 = e → isDupEv ev2 = true)
        ∧ (p ≠ "" → evPhone ev2 = p → isDupEv ev2 = true))
  ∧ (∀ e : String, ((syncAll oracle leads sheets).trace.filter
        (fun ev => isCreatedEv ev && decide (evEmail ev = e))).length ≤ 1)
  ∧ (∀ p : String, p ≠ "" → ((syncAll oracle leads sheets).trace.filter
        (fun ev => isCreatedEv ev && decide (evPhone ev = p))).length ≤ 1)
  ∧ (syncAll oracle leads sheets).totalSuccess
      = ((syncAll oracle leads sheets).trace.filter isCreatedEv).length
  ∧ (syncAll oracle leads sheets).totalDuplicates
      = ((syncAll oracle leads sheets).trace.filter isDupEv).length
  ∧ (syncAll oracle leads sheets).totalFailed
      = ((syncAll oracle leads sheets).trace.filter isFailEv).length := by
  obtain ⟨a1, a2, a3, a4, a5, a6⟩ := syncAllGo_inv oracle sheets 0
    { emails := buildExistingEmails leads, phones := buildExistingPhones leads,
      totalSuccess := 0, totalFailed := 0, totalDuplicates := 0,
      errors := [], trace := [], calls := [] }
    (fun l1 k e p l2 h => absurd (List.append_eq_nil.mp h.symm).2 (List.cons_ne_nil _ _))
    (mem_buildExistingEmails_ne leads) (mem_buildExistingPhones_ne leads) rfl rfl rfl
  refine ⟨fun l1 k e p l2 h => (a1 l1 k e p l2 h).1, ?_, ?_, a4, a5, a6⟩
  · intro e
    by_contra hcon
    push_neg at hcon
    obtain ⟨l1, x, l2, hl, hx, y, hy, hfy⟩ :=
      two_in_filter (fun ev => isCreatedEv ev && decide (evEmail ev = e))
        (syncAll oracle leads sheets).trace (by omega)
    rw [Bool.and_eq_true] at hx hfy
    obtain ⟨hxc, hxe⟩ := hx
    obtain ⟨hyc, hye⟩ := hfy
    cases x with
    | created kk ee pp =>
      have hee : ee = e := of_decide_eq_true hxe
      have hprev := (a1 l1 kk ee pp l2 hl).1
      have hdup : isDupEv y = true :=
        (hprev y hy).1 ((of_decide_eq_true hye).trans hee.symm)
      cases y with
      | created _ _ _ => simp [isDupEv] at hdup
      | dup _ _ _ => simp [isCreatedEv] at hyc
      | fail _ _ _ => simp [isCreatedEv] at hyc
    | dup kk ee pp => simp [isCreatedEv] at hxc
    | fail kk ee pp => simp [isCreatedEv] at hxc
  · intro p hp
    by_contra hcon
    push_neg at hcon
    obtain ⟨l1, x, l2, hl, hx, y, hy, hfy⟩ :=
      two_in_filter (fun ev => isCreatedEv ev && decide (evPhone ev = p))
        (syncAll oracle leads sheets).trace (by omega)
    rw [Bool.and_eq_true] at hx hfy
    obtain ⟨hxc, hxp⟩ := hx
    obtain ⟨hyc, hyp⟩ := hfy
    cases x with
    | created kk ee pp =>
      have hpp : pp = p := of_decide_eq_true hxp
      have hprev := (a1 l1 kk ee pp l2 hl).1
      have hdup : isDupEv y = true :=
        (hprev y hy).2 (by rw [hpp]; exact hp) ((of_decide_eq_true hyp).trans hpp.symm)
      cases y with
      | created _ _ _ => simp [isDupEv] at hdup
      | dup _ _ _ => simp [isCreatedEv] at hyc
      | fail _ _ _ => simp [isCreatedEv] at hyc
    | dup kk ee pp => simp [isCreatedEv] at hxc
    | fail kk ee pp => simp [isCreatedEv] at hxc

/-- Witness for C4: a concrete two-sheet run sharing one email - the
first sheet creates the lead (event `created 0`), the second sheet's
row with the same email is the duplicate event `dup 1`; the theorem's
trace implication instantiates to it, and the totals match the
trace. -/
theorem C4_shared_sets_dedup_witness :
    isDupEv (RowEvent.dup 1 "b@x.com" "") = true
  ∧ (syncAll (fun _ => CreateOutcome.resolved true "") []
      [{ name := "A", urlValid := true, fetch := FetchOutcome.ok "name,email\nbob,b@x.com" },
       { name := "B", urlValid := true, fetch := FetchOutcome.ok "name,email\nbobby,b@x.com" }]).totalSuccess
    = ((syncAll (fun _ => CreateOutcome.resolved true "") []
      [{ name := "A", urlValid := true, fetch := FetchOutcome.ok "name,email\nbob,b@x.com" },
       { name := "B", urlValid := true, fetch := FetchOutcome.ok "name,email\nbobby,b@x.com" }]).trace.filter
        isCreatedEv).length :=
  ⟨((C4_shared_sets_dedup (fun _ => CreateOutcome.resolved true "") []
      [{ name := "A", urlValid := true, fetch := FetchOutcome.ok "name,email\nbob,b@x.com" },
       { name := "B", urlValid := true, fetch := FetchOutcome.ok "name,email\nbobby,b@x.com" }]).1
    [] 0 "b@x.com" "" [RowEvent.dup 1 "b@x.com" ""] (by decide)
    (RowEvent.dup 1 "b@x.com" "") (List.mem_singleton.mpr rfl)).1 rfl,
   (C4_shared_sets_dedup (fun _ => CreateOutcome.resolved true "") []
      [{ name := "A", urlValid := true, fetch := FetchOutcome.ok "name,email\nbob,b@x.com" },
       { name := "B", urlValid := true, fetch := FetchOutcome.ok "name,email\nbobby,b@x.com" }]).2.2.2.1⟩
